import Mathlib

/-!
# Symptom selection and prediction session of `frontend/src/App.js`

A shallow embedding of the `App` component's state and handlers.

* JavaScript strings are Lean `String`s; the built-ins `trim`, `toLowerCase`,
  `split(',')`, `replace(/\s+/g, '_')` and `includes` are written out on the
  list of code points of a string.
* A handler of a React function component reads the state captured by the
  render it was created in and queues its updates.  Each handler therefore
  takes two states: `snap`, the state of the render (what `selectedSymptoms`,
  `availableSymptoms`, `inputValue` denote inside the handler), and `cur`, the
  state the queued updates have produced so far.  A plain `setX(v)` overwrites
  the field of `cur`, a functional `setX(prev => ...)` reads it.
-/

namespace App

/-! ## JavaScript string built-ins -/

/-- White space as `String.prototype.trim` and the regular expression class
`\s` understand it: the ECMAScript `WhiteSpace` and `LineTerminator` code
points. -/
def isWhiteSpace (c : Char) : Bool :=
  let n := c.toNat
  n == 0x09 || n == 0x0A || n == 0x0B || n == 0x0C || n == 0x0D || n == 0x20 ||
  n == 0xA0 || n == 0x1680 || (0x2000 ≤ n && n ≤ 0x200A) || n == 0x2028 ||
  n == 0x2029 || n == 0x202F || n == 0x205F || n == 0x3000 || n == 0xFEFF

/-- The characters of `s.trim()`. -/
def trim (l : List Char) : List Char :=
  ((l.dropWhile isWhiteSpace).reverse.dropWhile isWhiteSpace).reverse

/-! ### `toLowerCase`

`String.prototype.toLowerCase` maps every code point of the string to its
lower-case mapping of the Unicode Character Database (the data below is that
of version 14.0.0): the mappings of `UnicodeData.txt`, the one unconditional
mapping of `SpecialCasing.txt` to more than one code point (U+0130), and
the one context-sensitive mapping that is independent of the language,
`Final_Sigma` for U+03A3.
-/

/-- The lower-case mappings to one code point: in `(first, last, step, target)`
the code points `first`, `first + step`, ... up to `last` map to `target`,
`target + step`, ... -/
def lowerRanges : List (Nat × Nat × Nat × Nat) :=
  [(65, 90, 1, 97), (192, 214, 1, 224), (216, 222, 1, 248), (256, 302, 2, 257),
   (306, 310, 2, 307), (313, 327, 2, 314), (330, 374, 2, 331), (376, 376, 1, 255),
   (377, 381, 2, 378), (385, 385, 1, 595), (386, 388, 2, 387), (390, 390, 1, 596),
   (391, 391, 1, 392), (393, 394, 1, 598), (395, 395, 1, 396), (398, 398, 1, 477),
   (399, 399, 1, 601), (400, 400, 1, 603), (401, 401, 1, 402), (403, 403, 1, 608),
   (404, 404, 1, 611), (406, 406, 1, 617), (407, 407, 1, 616), (408, 408, 1, 409),
   (412, 412, 1, 623), (413, 413, 1, 626), (415, 415, 1, 629), (416, 420, 2, 417),
   (422, 422, 1, 640), (423, 423, 1, 424), (425, 425, 1, 643), (428, 428, 1, 429),
   (430, 430, 1, 648), (431, 431, 1, 432), (433, 434, 1, 650), (435, 437, 2, 436),
   (439, 439, 1, 658), (440, 440, 1, 441), (444, 444, 1, 445), (452, 452, 1, 454),
   (453, 453, 1, 454), (455, 455, 1, 457), (456, 456, 1, 457), (458, 458, 1, 460),
   (459, 475, 2, 460), (478, 494, 2, 479), (497, 497, 1, 499), (498, 500, 2, 499),
   (502, 502, 1, 405), (503, 503, 1, 447), (504, 542, 2, 505), (544, 544, 1, 414),
   (546, 562, 2, 547), (570, 570, 1, 11365), (571, 571, 1, 572), (573, 573, 1, 410),
   (574, 574, 1, 11366), (577, 577, 1, 578), (579, 579, 1, 384), (580, 580, 1, 649),
   (581, 581, 1, 652), (582, 590, 2, 583), (880, 882, 2, 881), (886, 886, 1, 887),
   (895, 895, 1, 1011), (902, 902, 1, 940), (904, 906, 1, 941), (908, 908, 1, 972),
   (910, 911, 1, 973), (913, 929, 1, 945), (931, 939, 1, 963), (975, 975, 1, 983),
   (984, 1006, 2, 985), (1012, 1012, 1, 952), (1015, 1015, 1, 1016), (1017, 1017, 1, 1010),
   (1018, 1018, 1, 1019), (1021, 1023, 1, 891), (1024, 1039, 1, 1104), (1040, 1071, 1, 1072),
   (1120, 1152, 2, 1121), (1162, 1214, 2, 1163), (1216, 1216, 1, 1231), (1217, 1229, 2, 1218),
   (1232, 1326, 2, 1233), (1329, 1366, 1, 1377), (4256, 4293, 1, 11520), (4295, 4295, 1, 11559),
   (4301, 4301, 1, 11565), (5024, 5103, 1, 43888), (5104, 5109, 1, 5112), (7312, 7354, 1, 4304),
   (7357, 7359, 1, 4349), (7680, 7828, 2, 7681), (7838, 7838, 1, 223), (7840, 7934, 2, 7841),
   (7944, 7951, 1, 7936), (7960, 7965, 1, 7952), (7976, 7983, 1, 7968), (7992, 7999, 1, 7984),
   (8008, 8013, 1, 8000), (8025, 8031, 2, 8017), (8040, 8047, 1, 8032), (8072, 8079, 1, 8064),
   (8088, 8095, 1, 8080), (8104, 8111, 1, 8096), (8120, 8121, 1, 8112), (8122, 8123, 1, 8048),
   (8124, 8124, 1, 8115), (8136, 8139, 1, 8050), (8140, 8140, 1, 8131), (8152, 8153, 1, 8144),
   (8154, 8155, 1, 8054), (8168, 8169, 1, 8160), (8170, 8171, 1, 8058), (8172, 8172, 1, 8165),
   (8184, 8185, 1, 8056), (8186, 8187, 1, 8060), (8188, 8188, 1, 8179), (8486, 8486, 1, 969),
   (8490, 8490, 1, 107), (8491, 8491, 1, 229), (8498, 8498, 1, 8526), (8544, 8559, 1, 8560),
   (8579, 8579, 1, 8580), (9398, 9423, 1, 9424), (11264, 11311, 1, 11312),
   (11360, 11360, 1, 11361), (11362, 11362, 1, 619), (11363, 11363, 1, 7549),
   (11364, 11364, 1, 637), (11367, 11371, 2, 11368), (11373, 11373, 1, 593),
   (11374, 11374, 1, 625), (11375, 11375, 1, 592), (11376, 11376, 1, 594),
   (11378, 11378, 1, 11379), (11381, 11381, 1, 11382), (11390, 11391, 1, 575),
   (11392, 11490, 2, 11393), (11499, 11501, 2, 11500), (11506, 11506, 1, 11507),
   (42560, 42604, 2, 42561), (42624, 42650, 2, 42625), (42786, 42798, 2, 42787),
   (42802, 42862, 2, 42803), (42873, 42875, 2, 42874), (42877, 42877, 1, 7545),
   (42878, 42886, 2, 42879), (42891, 42891, 1, 42892), (42893, 42893, 1, 613),
   (42896, 42898, 2, 42897), (42902, 42920, 2, 42903), (42922, 42922, 1, 614),
   (42923, 42923, 1, 604), (42924, 42924, 1, 609), (42925, 42925, 1, 620),
   (42926, 42926, 1, 618), (42928, 42928, 1, 670), (42929, 42929, 1, 647),
   (42930, 42930, 1, 669), (42931, 42931, 1, 43859), (42932, 42946, 2, 42933),
   (42948, 42948, 1, 42900), (42949, 42949, 1, 642), (42950, 42950, 1, 7566),
   (42951, 42953, 2, 42952), (42960, 42960, 1, 42961), (42966, 42968, 2, 42967),
   (42997, 42997, 1, 42998), (65313, 65338, 1, 65345), (66560, 66599, 1, 66600),
   (66736, 66771, 1, 66776), (66928, 66938, 1, 66967), (66940, 66954, 1, 66979),
   (66956, 66962, 1, 66995), (66964, 66965, 1, 67003), (68736, 68786, 1, 68800),
   (71840, 71871, 1, 71872), (93760, 93791, 1, 93792), (125184, 125217, 1, 125218)]

/-- The code points with the property `Cased`, as closed intervals. -/
def casedRanges : List (Nat × Nat) :=
  [(65, 90), (97, 122), (170, 170), (181, 181), (186, 186), (192, 214), (216, 246), (248, 442),
   (444, 447), (452, 659), (661, 696), (704, 705), (736, 740), (837, 837), (880, 883),
   (886, 887), (890, 893), (895, 895), (902, 902), (904, 906), (908, 908), (910, 929),
   (931, 1013), (1015, 1153), (1162, 1327), (1329, 1366), (1376, 1416), (4256, 4293),
   (4295, 4295), (4301, 4301), (4304, 4346), (4349, 4351), (5024, 5109), (5112, 5117),
   (7296, 7304), (7312, 7354), (7357, 7359), (7424, 7615), (7680, 7957), (7960, 7965),
   (7968, 8005), (8008, 8013), (8016, 8023), (8025, 8025), (8027, 8027), (8029, 8029),
   (8031, 8061), (8064, 8116), (8118, 8124), (8126, 8126), (8130, 8132), (8134, 8140),
   (8144, 8147), (8150, 8155), (8160, 8172), (8178, 8180), (8182, 8188), (8305, 8305),
   (8319, 8319), (8336, 8348), (8450, 8450), (8455, 8455), (8458, 8467), (8469, 8469),
   (8473, 8477), (8484, 8484), (8486, 8486), (8488, 8488), (8490, 8493), (8495, 8500),
   (8505, 8505), (8508, 8511), (8517, 8521), (8526, 8526), (8544, 8575), (8579, 8580),
   (9398, 9449), (11264, 11492), (11499, 11502), (11506, 11507), (11520, 11557), (11559, 11559),
   (11565, 11565), (42560, 42605), (42624, 42653), (42786, 42887), (42891, 42894),
   (42896, 42954), (42960, 42961), (42963, 42963), (42965, 42969), (42997, 42998),
   (43000, 43002), (43824, 43866), (43868, 43880), (43888, 43967), (64256, 64262),
   (64275, 64279), (65313, 65338), (65345, 65370), (66560, 66639), (66736, 66771),
   (66776, 66811), (66928, 66938), (66940, 66954), (66956, 66962), (66964, 66965),
   (66967, 66977), (66979, 66993), (66995, 67001), (67003, 67004), (67456, 67456),
   (67459, 67461), (67463, 67504), (67506, 67514), (68736, 68786), (68800, 68850),
   (71840, 71903), (93760, 93823), (119808, 119892), (119894, 119964), (119966, 119967),
   (119970, 119970), (119973, 119974), (119977, 119980), (119982, 119993), (119995, 119995),
   (119997, 120003), (120005, 120069), (120071, 120074), (120077, 120084), (120086, 120092),
   (120094, 120121), (120123, 120126), (120128, 120132), (120134, 120134), (120138, 120144),
   (120146, 120485), (120488, 120512), (120514, 120538), (120540, 120570), (120572, 120596),
   (120598, 120628), (120630, 120654), (120656, 120686), (120688, 120712), (120714, 120744),
   (120746, 120770), (120772, 120779), (122624, 122633), (122635, 122654), (125184, 125251),
   (127280, 127305), (127312, 127337), (127344, 127369)]

/-- The code points with the property `Case_Ignorable`, as closed intervals. -/
def caseIgnorableRanges : List (Nat × Nat) :=
  [(39, 39), (46, 46), (58, 58), (94, 94), (96, 96), (168, 168), (173, 173), (175, 175),
   (180, 180), (183, 184), (688, 879), (884, 885), (890, 890), (900, 901), (903, 903),
   (1155, 1161), (1369, 1369), (1375, 1375), (1425, 1469), (1471, 1471), (1473, 1474),
   (1476, 1477), (1479, 1479), (1524, 1524), (1536, 1541), (1552, 1562), (1564, 1564),
   (1600, 1600), (1611, 1631), (1648, 1648), (1750, 1757), (1759, 1768), (1770, 1773),
   (1807, 1807), (1809, 1809), (1840, 1866), (1958, 1968), (2027, 2037), (2042, 2042),
   (2045, 2045), (2070, 2093), (2137, 2139), (2184, 2184), (2192, 2193), (2200, 2207),
   (2249, 2306), (2362, 2362), (2364, 2364), (2369, 2376), (2381, 2381), (2385, 2391),
   (2402, 2403), (2417, 2417), (2433, 2433), (2492, 2492), (2497, 2500), (2509, 2509),
   (2530, 2531), (2558, 2558), (2561, 2562), (2620, 2620), (2625, 2626), (2631, 2632),
   (2635, 2637), (2641, 2641), (2672, 2673), (2677, 2677), (2689, 2690), (2748, 2748),
   (2753, 2757), (2759, 2760), (2765, 2765), (2786, 2787), (2810, 2815), (2817, 2817),
   (2876, 2876), (2879, 2879), (2881, 2884), (2893, 2893), (2901, 2902), (2914, 2915),
   (2946, 2946), (3008, 3008), (3021, 3021), (3072, 3072), (3076, 3076), (3132, 3132),
   (3134, 3136), (3142, 3144), (3146, 3149), (3157, 3158), (3170, 3171), (3201, 3201),
   (3260, 3260), (3263, 3263), (3270, 3270), (3276, 3277), (3298, 3299), (3328, 3329),
   (3387, 3388), (3393, 3396), (3405, 3405), (3426, 3427), (3457, 3457), (3530, 3530),
   (3538, 3540), (3542, 3542), (3633, 3633), (3636, 3642), (3654, 3662), (3761, 3761),
   (3764, 3772), (3782, 3782), (3784, 3789), (3864, 3865), (3893, 3893), (3895, 3895),
   (3897, 3897), (3953, 3966), (3968, 3972), (3974, 3975), (3981, 3991), (3993, 4028),
   (4038, 4038), (4141, 4144), (4146, 4151), (4153, 4154), (4157, 4158), (4184, 4185),
   (4190, 4192), (4209, 4212), (4226, 4226), (4229, 4230), (4237, 4237), (4253, 4253),
   (4348, 4348), (4957, 4959), (5906, 5908), (5938, 5939), (5970, 5971), (6002, 6003),
   (6068, 6069), (6071, 6077), (6086, 6086), (6089, 6099), (6103, 6103), (6109, 6109),
   (6155, 6159), (6211, 6211), (6277, 6278), (6313, 6313), (6432, 6434), (6439, 6440),
   (6450, 6450), (6457, 6459), (6679, 6680), (6683, 6683), (6742, 6742), (6744, 6750),
   (6752, 6752), (6754, 6754), (6757, 6764), (6771, 6780), (6783, 6783), (6823, 6823),
   (6832, 6862), (6912, 6915), (6964, 6964), (6966, 6970), (6972, 6972), (6978, 6978),
   (7019, 7027), (7040, 7041), (7074, 7077), (7080, 7081), (7083, 7085), (7142, 7142),
   (7144, 7145), (7149, 7149), (7151, 7153), (7212, 7219), (7222, 7223), (7288, 7293),
   (7376, 7378), (7380, 7392), (7394, 7400), (7405, 7405), (7412, 7412), (7416, 7417),
   (7468, 7530), (7544, 7544), (7579, 7679), (8125, 8125), (8127, 8129), (8141, 8143),
   (8157, 8159), (8173, 8175), (8189, 8190), (8203, 8207), (8216, 8217), (8228, 8228),
   (8231, 8231), (8234, 8238), (8288, 8292), (8294, 8303), (8305, 8305), (8319, 8319),
   (8336, 8348), (8400, 8432), (11388, 11389), (11503, 11505), (11631, 11631), (11647, 11647),
   (11744, 11775), (11823, 11823), (12293, 12293), (12330, 12333), (12337, 12341),
   (12347, 12347), (12441, 12446), (12540, 12542), (40981, 40981), (42232, 42237),
   (42508, 42508), (42607, 42610), (42612, 42621), (42623, 42623), (42652, 42655),
   (42736, 42737), (42752, 42785), (42864, 42864), (42888, 42890), (42994, 42996),
   (43000, 43001), (43010, 43010), (43014, 43014), (43019, 43019), (43045, 43046),
   (43052, 43052), (43204, 43205), (43232, 43249), (43263, 43263), (43302, 43309),
   (43335, 43345), (43392, 43394), (43443, 43443), (43446, 43449), (43452, 43453),
   (43471, 43471), (43493, 43494), (43561, 43566), (43569, 43570), (43573, 43574),
   (43587, 43587), (43596, 43596), (43632, 43632), (43644, 43644), (43696, 43696),
   (43698, 43700), (43703, 43704), (43710, 43711), (43713, 43713), (43741, 43741),
   (43756, 43757), (43763, 43764), (43766, 43766), (43867, 43871), (43881, 43883),
   (44005, 44005), (44008, 44008), (44013, 44013), (64286, 64286), (64434, 64450),
   (65024, 65039), (65043, 65043), (65056, 65071), (65106, 65106), (65109, 65109),
   (65279, 65279), (65287, 65287), (65294, 65294), (65306, 65306), (65342, 65342),
   (65344, 65344), (65392, 65392), (65438, 65439), (65507, 65507), (65529, 65531),
   (66045, 66045), (66272, 66272), (66422, 66426), (67456, 67461), (67463, 67504),
   (67506, 67514), (68097, 68099), (68101, 68102), (68108, 68111), (68152, 68154),
   (68159, 68159), (68325, 68326), (68900, 68903), (69291, 69292), (69446, 69456),
   (69506, 69509), (69633, 69633), (69688, 69702), (69744, 69744), (69747, 69748),
   (69759, 69761), (69811, 69814), (69817, 69818), (69821, 69821), (69826, 69826),
   (69837, 69837), (69888, 69890), (69927, 69931), (69933, 69940), (70003, 70003),
   (70016, 70017), (70070, 70078), (70089, 70092), (70095, 70095), (70191, 70193),
   (70196, 70196), (70198, 70199), (70206, 70206), (70367, 70367), (70371, 70378),
   (70400, 70401), (70459, 70460), (70464, 70464), (70502, 70508), (70512, 70516),
   (70712, 70719), (70722, 70724), (70726, 70726), (70750, 70750), (70835, 70840),
   (70842, 70842), (70847, 70848), (70850, 70851), (71090, 71093), (71100, 71101),
   (71103, 71104), (71132, 71133), (71219, 71226), (71229, 71229), (71231, 71232),
   (71339, 71339), (71341, 71341), (71344, 71349), (71351, 71351), (71453, 71455),
   (71458, 71461), (71463, 71467), (71727, 71735), (71737, 71738), (71995, 71996),
   (71998, 71998), (72003, 72003), (72148, 72151), (72154, 72155), (72160, 72160),
   (72193, 72202), (72243, 72248), (72251, 72254), (72263, 72263), (72273, 72278),
   (72281, 72283), (72330, 72342), (72344, 72345), (72752, 72758), (72760, 72765),
   (72767, 72767), (72850, 72871), (72874, 72880), (72882, 72883), (72885, 72886),
   (73009, 73014), (73018, 73018), (73020, 73021), (73023, 73029), (73031, 73031),
   (73104, 73105), (73109, 73109), (73111, 73111), (73459, 73460), (78896, 78904),
   (92912, 92916), (92976, 92982), (92992, 92995), (94031, 94031), (94095, 94111),
   (94176, 94177), (94179, 94180), (110576, 110579), (110581, 110587), (110589, 110590),
   (113821, 113822), (113824, 113827), (118528, 118573), (118576, 118598), (119143, 119145),
   (119155, 119170), (119173, 119179), (119210, 119213), (119362, 119364), (121344, 121398),
   (121403, 121452), (121461, 121461), (121476, 121476), (121499, 121503), (121505, 121519),
   (122880, 122886), (122888, 122904), (122907, 122913), (122915, 122916), (122918, 122922),
   (123184, 123197), (123566, 123566), (123628, 123631), (125136, 125142), (125252, 125259),
   (127995, 127999), (917505, 917505), (917536, 917631), (917760, 917999)]

/-- Whether the code point `n` is one of those the entry `e` maps. -/
def inLowerRange (n : Nat) (e : Nat × Nat × Nat × Nat) : Bool :=
  e.1 ≤ n && n ≤ e.2.1 && (n - e.1) % e.2.2.1 == 0

/-- The lower-case mapping of the code point `n` to one code point, if it has
one. -/
def simpleLower (n : Nat) : Option Nat :=
  match lowerRanges.find? (inLowerRange n) with
  | some e => some (e.2.2.2 + (n - e.1))
  | none => none

/-- The lower-case mapping of a character outside any context: U+0130 maps to
`i` followed by U+0307, a character without mapping to itself. -/
def lowerMapping (c : Char) : List Char :=
  if c.toNat = 0x130 then ['i', Char.ofNat 0x307]
  else
    match simpleLower c.toNat with
    | some m => [Char.ofNat m]
    | none => [c]

/-- Membership of a code point in a list of closed intervals. -/
def inRanges (rs : List (Nat × Nat)) (n : Nat) : Bool :=
  rs.any fun r => r.1 ≤ n && n ≤ r.2

/-- The property `Cased`. -/
def isCased (c : Char) : Bool := inRanges casedRanges c.toNat

/-- The property `Case_Ignorable`. -/
def isCaseIgnorable (c : Char) : Bool := inRanges caseIgnorableRanges c.toNat

/-- Whether the characters start with case-ignorable characters, none or more,
followed by a cased one. -/
def casedAhead : List Char → Bool
  | [] => false
  | c :: cs => isCased c || (isCaseIgnorable c && casedAhead cs)

/-- The condition `Final_Sigma`: `before` are the characters preceding the
sigma, the nearest first, and `after` those following it. -/
def finalSigma (before after : List Char) : Bool :=
  casedAhead before && !casedAhead after

/-- Lower-casing of the rest of a string, `before` being the characters already
passed, the nearest first. -/
def lowerFrom : List Char → List Char → List Char
  | _, [] => []
  | before, c :: cs =>
    (if c.toNat = 0x3A3 ∧ finalSigma before cs = true then [Char.ofNat 0x3C2]
     else lowerMapping c) ++ lowerFrom (c :: before) cs

/-- The characters of `s.toLowerCase()`. -/
def toLowerCase (l : List Char) : List Char :=
  lowerFrom [] l

/-- Scanner behind `replace(/\s+/g, '_')`: `inRun` tells whether the previous
character belonged to the white-space run being replaced. -/
def replaceRuns : Bool → List Char → List Char
  | _, [] => []
  | inRun, c :: cs =>
    if isWhiteSpace c then
      if inRun then replaceRuns true cs else '_' :: replaceRuns true cs
    else c :: replaceRuns false cs

/-- The characters of `s.replace(/\s+/g, '_')`. -/
def replaceWhiteSpace (l : List Char) : List Char :=
  replaceRuns false l

/-- The pieces of `s.split(',')`; the empty string has the one piece `""`. -/
def splitComma : List Char → List (List Char)
  | [] => [[]]
  | c :: cs =>
    if c = ',' then [] :: splitComma cs
    else
      match splitComma cs with
      | [] => [[c]]
      | p :: ps => (c :: p) :: ps

/-- The map of line 54: `s => s.trim().toLowerCase().replace(/\s+/g, '_')`, on
characters. -/
def normalizeChars (l : List Char) : List Char :=
  replaceWhiteSpace (toLowerCase (trim l))

/-- The map of line 54: `s => s.trim().toLowerCase().replace(/\s+/g, '_')`. -/
def normalize (s : String) : String :=
  ⟨normalizeChars s.data⟩

/-- The array `inputValue.split(',').map(s => ...)` of line 54. -/
def splitSymptoms (inputValue : String) : List String :=
  (splitComma inputValue.data).map fun p => ⟨normalizeChars p⟩

/-- The test `value.includes(',')` of line 75. -/
def includesComma (value : String) : Bool :=
  value.data.contains ','

/-! ### Checks on the lower-case data -/

/-- The code points a `Char` can hold. -/
def validScalar (m : Nat) : Bool :=
  m < 0xD800 || (0xDFFF < m && m < 0x110000)

/-- No image of the entry `e` is a code point the entry `f` maps: the images
lie before or after the interval of `f`, or `f` maps every second code point
and the images are the ones it skips. -/
def imageClear (e f : Nat × Nat × Nat × Nat) : Bool :=
  e.2.2.2 + (e.2.1 - e.1) < f.1 || f.2.1 < e.2.2.2 ||
    (f.2.2.1 == 2 && (e.2.2.1 == 2 || e.2.1 == e.1) && (e.2.2.2 + f.1) % 2 == 1)

/-- The images of the entry `e` are code points of characters, none of them
U+0130, and none of them has a lower-case mapping. -/
def rangeStable (e : Nat × Nat × Nat × Nat) : Bool :=
  (e.2.2.2 + (e.2.1 - e.1) < 0xD800 ||
    (0xDFFF < e.2.2.2 && e.2.2.2 + (e.2.1 - e.1) < 0x110000)) &&
  (e.2.2.2 + (e.2.1 - e.1) < 0x130 || 0x130 < e.2.2.2) &&
  (e.2.2.1 == 1 || e.2.2.1 == 2) &&
  lowerRanges.all (imageClear e)

/-- A character that lower-casing leaves alone wherever it stands: it is its
own lower-case mapping and it is not the capital sigma. -/
def lowerFixed (d : Char) : Prop :=
  lowerMapping d = [d] ∧ d.toNat ≠ 0x3A3

/-! ## Component state -/

/-- A parsed JSON value, what `response.json()` resolves to.  Numbers are
kept as their literal text: the component never computes with them. -/
inductive Json where
  | null : Json
  | bool (b : Bool) : Json
  | num (literal : String) : Json
  | str (s : String) : Json
  | arr (items : List Json) : Json
  | obj (fields : List (String × Json)) : Json

/-- The six `useState` cells of `App` (lines 8-13).  A `Set` is the list of its
members in insertion order, which is also what `Array.from` yields. -/
structure AppState where
  selectedSymptoms : List String
  availableSymptoms : List String
  inputValue : String
  loading : Bool
  error : String
  results : Json

/-- The initial values given to `useState` (lines 8-13). -/
def initialState : AppState :=
  { selectedSymptoms := [], availableSymptoms := [], inputValue := "",
    loading := false, error := "", results := Json.null }

/-- The default of line 3, used when `REACT_APP_API_URL` is unset or empty. -/
def defaultApiBaseUrl : String := "http://127.0.0.1:8000"

/-- Line 3: `process.env.REACT_APP_API_URL || "http://127.0.0.1:8000"`. -/
def API_BASE_URL (env : Option String) : String :=
  match env with
  | none => defaultApiBaseUrl
  | some url => if url = "" then defaultApiBaseUrl else url

/-- The value `new Set([...prev, symptom])` of line 41. -/
def setAdd (prev : List String) (symptom : String) : List String :=
  if prev.contains symptom then prev else prev ++ [symptom]

/-- The value of lines 47-49: a copy of `prev` with `symptom` deleted. -/
def setDelete (prev : List String) (symptom : String) : List String :=
  prev.erase symptom

/-- The message of line 37. -/
def invalidSymptomMessage (symptom : String) : String :=
  "\"" ++ symptom ++ "\" is not a valid symptom. Please check the spelling."

/-- The message of line 82. -/
def emptySelectionMessage : String :=
  "Please add at least one symptom before predicting."

/-- The message of lines 26-28. -/
def loadFailedMessage (base : String) : String :=
  "Failed to load symptoms. Please check if the API is running at " ++ base

/-- The message of lines 105-107, `cause` being `error.message`. -/
def predictionFailedMessage (base cause : String) : String :=
  "Prediction failed: " ++ cause ++ ". Please make sure the API is running on " ++ base

/-- The message of the error thrown at line 98. -/
def serverErrorCause (status : Nat) : String :=
  "Server error: " ++ toString status

/-! ## Handlers -/

/-- Lines 33-43, `addSymptom`. -/
def addSymptom (snap : AppState) (symptom : String) (cur : AppState) : AppState :=
  if snap.selectedSymptoms.contains symptom then cur
  else if !snap.availableSymptoms.contains symptom then
    { cur with error := invalidSymptomMessage symptom }
  else
    { cur with selectedSymptoms := setAdd cur.selectedSymptoms symptom, error := "" }

/-- Lines 45-51, `removeSymptom`. -/
def removeSymptom (symptom : String) (cur : AppState) : AppState :=
  { cur with selectedSymptoms := setDelete cur.selectedSymptoms symptom }

/-- The callback of `symptoms.forEach` (lines 56-60). -/
def forEachBody (snap : AppState) (cur : AppState) (symptom : String) : AppState :=
  if symptom ≠ "" ∧ !snap.selectedSymptoms.contains symptom then
    addSymptom snap symptom cur
  else cur

/-- Lines 53-63, `addSymptomsFromInput`. -/
def addSymptomsFromInput (snap : AppState) (cur : AppState) : AppState :=
  let symptoms := splitSymptoms snap.inputValue
  let cur1 := symptoms.foldl (forEachBody snap) cur
  { cur1 with inputValue := "" }

/-- Lines 65-69, `handleKeyPress`, `key` being `e.key`. -/
def handleKeyPress (snap : AppState) (key : String) (cur : AppState) : AppState :=
  if key = "Enter" then addSymptomsFromInput snap cur else cur

/-- Lines 71-78, `handleInputChange`, `value` being `e.target.value`. -/
def handleInputChange (snap : AppState) (value : String) (cur : AppState) : AppState :=
  let cur1 := { cur with inputValue := value }
  if includesComma value then addSymptomsFromInput snap cur1 else cur1

/-- The request of lines 91-95. -/
structure PredictRequest where
  url : String
  symptoms : List String
deriving DecidableEq

/-- How an awaited `fetch` followed by `response.json()` ends: `fetch` rejects
with an error carrying `message`, or it resolves to a response with a status
whose body either fails to parse (with the parser's message) or parses. -/
inductive FetchResult where
  | rejected (message : String) : FetchResult
  | response (status : Nat) (body : Except String Json) : FetchResult

/-- The getter `response.ok`: the status is in the range 200-299. -/
def statusOk (status : Nat) : Bool :=
  200 ≤ status && status ≤ 299

/-- Lines 80-95, `predictDisease` up to its `await`: the queued updates and the
request sent, if any. -/
def predictDisease (base : String) (snap : AppState) (cur : AppState) :
    AppState × Option PredictRequest :=
  if snap.selectedSymptoms.length = 0 then
    ({ cur with error := emptySelectionMessage }, none)
  else
    ({ cur with loading := true, error := "", results := Json.null },
     some { url := base ++ "/predict", symptoms := snap.selectedSymptoms })

/-- Lines 97-110, `predictDisease` after its `await`, run when the request
settles with `r`. -/
def predictDiseaseResume (base : String) (r : FetchResult) (cur : AppState) : AppState :=
  match r with
  | FetchResult.rejected message =>
    { cur with error := predictionFailedMessage base message, loading := false }
  | FetchResult.response status body =>
    if !statusOk status then
      { cur with error := predictionFailedMessage base (serverErrorCause status),
                 loading := false }
    else
      match body with
      | Except.error message =>
        { cur with error := predictionFailedMessage base message, loading := false }
      | Except.ok data =>
        { cur with results := data, loading := false }

/-- Lines 19-30, `loadSymptomSuggestions` after its `await`s: `none` when the
`try` block throws, `some symptoms` when `data.symptoms` is that array. -/
def loadSymptomSuggestionsResume (base : String) (r : Option (List String))
    (cur : AppState) : AppState :=
  match r with
  | some symptoms => { cur with availableSymptoms := symptoms }
  | none => { cur with error := loadFailedMessage base }

/-- Line 216: the `disabled` attribute of the analyze button. -/
def analyzeDisabled (st : AppState) : Bool :=
  st.loading || st.selectedSymptoms.length = 0

/-- Whether a prediction result is stored: `results` is not `null`. -/
def resultSet (st : AppState) : Bool :=
  match st.results with
  | Json.null => false
  | _ => true

/-- The fields of a result the render reads (lines 280-374). -/
def resultFields : List String :=
  ["predicted_disease", "description", "precautions", "medications", "diet", "workout"]

/-- A payload that carries none of the fields the render reads: any value that
is not an object, or an object without those fields. -/
def carriesNoResultField : Json → Bool
  | Json.obj fields => fields.all fun f => !resultFields.contains f.1
  | _ => true

/-! ## The running component

The component together with the requests it is waiting for.  Events are the
handler calls and the settlements of pending requests; every event is handled
on the state of the latest render.
-/

/-- The component state and its pending requests. -/
structure Sys where
  app : AppState
  loadPending : Bool
  inFlight : List PredictRequest

/-- The mounted component: the effect of lines 15-17 has called
`loadSymptomSuggestions`, whose request is pending. -/
def Sys.start : Sys :=
  { app := initialState, loadPending := true, inFlight := [] }

/-- What can happen to the running component. -/
inductive Event where
  | symptomsLoaded (r : Option (List String)) : Event
  | addSymptom (symptom : String) : Event
  | removeSymptom (symptom : String) : Event
  | addSymptomsFromInput : Event
  | keyPress (key : String) : Event
  | inputChange (value : String) : Event
  | predictDisease : Event
  | predictSettled (i : Nat) (r : FetchResult) : Event

/-- The call of a handler, or the settlement of a pending request, whatever
the rendered page offers; `none` when there is no such pending request. -/
def Sys.call (base : String) (s : Sys) : Event → Option Sys
  | Event.symptomsLoaded r =>
    if s.loadPending then
      some { s with app := loadSymptomSuggestionsResume base r s.app, loadPending := false }
    else none
  | Event.addSymptom symptom => some { s with app := addSymptom s.app symptom s.app }
  | Event.removeSymptom symptom => some { s with app := removeSymptom symptom s.app }
  | Event.addSymptomsFromInput => some { s with app := addSymptomsFromInput s.app s.app }
  | Event.keyPress key => some { s with app := handleKeyPress s.app key s.app }
  | Event.inputChange value => some { s with app := handleInputChange s.app value s.app }
  | Event.predictDisease =>
    match predictDisease base s.app s.app with
    | (app1, none) => some { s with app := app1 }
    | (app1, some req) => some { s with app := app1, inFlight := s.inFlight ++ [req] }
  | Event.predictSettled i r =>
    if i < s.inFlight.length then
      some { s with app := predictDiseaseResume base r s.app,
                    inFlight := s.inFlight.eraseIdx i }
    else none

/-- Lines 114-118, `commonSymptoms`. -/
def commonSymptoms : List String :=
  ["headache", "fever", "cough", "fatigue", "nausea", "vomiting",
   "diarrhea", "abdominal_pain", "back_pain", "joint_pain",
   "muscle_pain", "dizziness", "chest_pain", "shortness_of_breath"]

/-- Whether the rendered page lets the event happen.  `addSymptom` is called
by the buttons of lines 413-425, one for each common symptom of the
vocabulary, disabled once the symptom is selected; `removeSymptom` by the
buttons of lines 194-205, one for each selected symptom; `predictDisease` by
the analyze button of lines 213-217; the input field and its button (lines
166-176) are always there. -/
def Event.enabled (s : Sys) : Event → Bool
  | Event.addSymptom symptom =>
    commonSymptoms.contains symptom && s.app.availableSymptoms.contains symptom &&
      !s.app.selectedSymptoms.contains symptom
  | Event.removeSymptom symptom => s.app.selectedSymptoms.contains symptom
  | Event.predictDisease => !analyzeDisabled s.app
  | _ => true

/-- One event of the running component: the call of `Sys.call`, when the
rendered page lets it happen. -/
def Sys.step (base : String) (s : Sys) (e : Event) : Option Sys :=
  if e.enabled s then Sys.call base s e else none

/-- The events of a list, one after the other. -/
def Sys.run (base : String) (s : Sys) : List Event → Option Sys
  | [] => some s
  | e :: es =>
    match Sys.step base s e with
    | none => none
    | some s1 => Sys.run base s1 es

/-- The states handler calls and settlements lead to from the mounted
component, every handler being callable in every state.  They include the
states of the running component. -/
inductive Reachable (base : String) : Sys → Prop where
  | start : Reachable base Sys.start
  | step {s t : Sys} (e : Event) (before : Reachable base s)
      (next : Sys.call base s e = some t) : Reachable base t

/-- The states of the running component: those the events the rendered page
lets happen lead to. -/
inductive UiReachable (base : String) : Sys → Prop where
  | start : UiReachable base Sys.start
  | step {s t : Sys} (e : Event) (before : UiReachable base s)
      (next : Sys.step base s e = some t) : UiReachable base t

/-- The pieces `addSymptomsFromInput` passes to `addSymptom`. -/
def attempted (snap : AppState) : List String :=
  (splitSymptoms snap.inputValue).filter fun symptom =>
    symptom ≠ "" ∧ !snap.selectedSymptoms.contains symptom

/-- The pieces `addSymptom` rejects in a run of `addSymptomsFromInput`. -/
def rejected (snap : AppState) : List String :=
  (attempted snap).filter fun symptom => !snap.availableSymptoms.contains symptom

/-! ## Sample states -/

/-- A loaded vocabulary of three symptoms. -/
def sampleVocabulary : List String := ["headache", "fever", "cough"]

/-- The state after the sample vocabulary has loaded, with `r` in the input
field and nothing selected. -/
def typed (r : String) : AppState :=
  { initialState with availableSymptoms := sampleVocabulary, inputValue := r }

/-- The state reached from `s` by the events `es`; an event that cannot occur
ends the run where it stands. -/
def afterEvents (base : String) : Sys → List Event → Sys
  | s, [] => s
  | s, e :: es =>
    match Sys.step base s e with
    | none => s
    | some s1 => afterEvents base s1 es

/-- A payload naming the disease `Flu`. -/
def fluJson : Json :=
  Json.obj [("predicted_disease", Json.str "Flu"), ("precautions", Json.arr [Json.str "rest"])]

/-- A payload naming the disease `Cold`. -/
def coldJson : Json :=
  Json.obj [("predicted_disease", Json.str "Cold")]

/-- The running component once the sample vocabulary has loaded and `fever`
has been selected. -/
def feverSelected : Sys :=
  afterEvents defaultApiBaseUrl Sys.start
    [Event.symptomsLoaded (some sampleVocabulary), Event.addSymptom "fever"]

/-- What holds of every state of the running component: the vocabulary is
empty until it has loaded, every selected symptom is in the vocabulary, and no
result is stored while loading. -/
def Inv (s : Sys) : Prop :=
  (s.loadPending = true → s.app.availableSymptoms = []) ∧
  (∀ x ∈ s.app.selectedSymptoms, x ∈ s.app.availableSymptoms) ∧
  (s.app.loading = true → s.app.results = Json.null)

end App

namespace App

/-! ## Normalisation -/

theorem lowerRanges_stable : lowerRanges.all rangeStable = true := by decide!

theorem toNat_ofNat_valid (m : Nat) (h : validScalar m = true) : (Char.ofNat m).toNat = m := by
  have hv : m.isValidChar := by
    simp only [validScalar, Bool.or_eq_true, Bool.and_eq_true, decide_eq_true_eq] at h
    exact h
  unfold Char.ofNat
  rw [dif_pos hv]
  rfl

theorem simpleLower_image (n m : Nat) (h : simpleLower n = some m) :
    validScalar m = true ∧ m ≠ 0x130 ∧ simpleLower m = none := by
  unfold simpleLower at h
  split at h
  · rename_i e heq
    injection h with h
    have hmem : e ∈ lowerRanges := List.mem_of_find?_eq_some heq
    have hin : inLowerRange n e = true := List.find?_some heq
    have hst := List.all_eq_true.mp lowerRanges_stable e hmem
    obtain ⟨lo, hi, step, tgt⟩ := e
    simp only [rangeStable, Bool.and_eq_true, Bool.or_eq_true, decide_eq_true_eq,
      beq_iff_eq, List.all_eq_true] at hst
    simp only [inLowerRange, Bool.and_eq_true, decide_eq_true_eq, beq_iff_eq] at hin
    simp only at h
    obtain ⟨⟨⟨hvalid, h130⟩, hstep⟩, hclear⟩ := hst
    obtain ⟨⟨hlo, hhi⟩, hmod⟩ := hin
    have hmle : m ≤ tgt + (hi - lo) ∧ tgt ≤ m := by omega
    refine ⟨?_, ?_, ?_⟩
    · simp only [validScalar, Bool.or_eq_true, Bool.and_eq_true, decide_eq_true_eq]
      omega
    · omega
    · have hnone : lowerRanges.find? (inLowerRange m) = none := by
        rw [List.find?_eq_none]
        intro f hf hcontra
        have hc := hclear f hf
        obtain ⟨lo2, hi2, step2, tgt2⟩ := f
        simp only [imageClear, Bool.or_eq_true, Bool.and_eq_true, decide_eq_true_eq,
          beq_iff_eq] at hc
        simp only [inLowerRange, Bool.and_eq_true, decide_eq_true_eq, beq_iff_eq] at hcontra
        obtain ⟨⟨hlo2, hhi2⟩, hmod2⟩ := hcontra
        rcases hc with (hc | hc) | ⟨⟨hs2, hs⟩, hpar⟩
        · omega
        · omega
        · subst hs2
          rcases hs with hs | hs
          · subst hs
            omega
          · subst hs
            omega
      unfold simpleLower
      rw [hnone]
  · simp at h

theorem lowerFixed_of_simpleLower_none (c : Char) (h130 : c.toNat ≠ 0x130)
    (hnone : simpleLower c.toNat = none) : lowerFixed c := by
  refine ⟨?_, ?_⟩
  · unfold lowerMapping
    rw [if_neg h130, hnone]
  · intro hs
    rw [hs] at hnone
    revert hnone
    decide!

theorem lowerMapping_fixed (c d : Char) (h : d ∈ lowerMapping c) : lowerFixed d := by
  unfold lowerMapping at h
  split_ifs at h with h130
  · simp only [List.mem_cons, List.mem_singleton, List.not_mem_nil, or_false] at h
    rcases h with rfl | rfl
    · exact ⟨by decide!, by decide!⟩
    · exact ⟨by decide!, by decide!⟩
  · split at h
    · rename_i m hm
      obtain ⟨hv, hne, hnone⟩ := simpleLower_image _ _ hm
      simp only [List.mem_singleton] at h
      subst h
      have hnat := toNat_ofNat_valid m hv
      exact lowerFixed_of_simpleLower_none _ (by rw [hnat]; exact hne) (by rw [hnat]; exact hnone)
    · rename_i hnone
      simp only [List.mem_singleton] at h
      subst h
      exact lowerFixed_of_simpleLower_none _ h130 hnone

theorem lowerFrom_fixed (l before : List Char) (c : Char) (h : c ∈ lowerFrom before l) :
    lowerFixed c := by
  induction l generalizing before with
  | nil => simp [lowerFrom] at h
  | cons a l ih =>
    simp only [lowerFrom, List.mem_append] at h
    rcases h with h | h
    · split_ifs at h
      · simp only [List.mem_singleton] at h
        subst h
        exact ⟨by decide!, by decide!⟩
      · exact lowerMapping_fixed a c h
    · exact ih _ h

theorem lowerFrom_of_fixed (l before : List Char) (h : ∀ c ∈ l, lowerFixed c) :
    lowerFrom before l = l := by
  induction l generalizing before with
  | nil => rfl
  | cons a l ih =>
    have ha := h a (List.mem_cons_self a l)
    simp only [lowerFrom]
    rw [if_neg (fun hc => ha.2 hc.1), ha.1, ih _ fun c hc => h c (List.mem_cons_of_mem a hc)]
    rfl

theorem replaceRuns_clean (l : List Char) (hl : ∀ c ∈ l, lowerFixed c) (b : Bool) (c : Char)
    (hc : c ∈ replaceRuns b l) :
    isWhiteSpace c = false ∧ lowerFixed c := by
  induction l generalizing b with
  | nil => simp [replaceRuns] at hc
  | cons a l ih =>
    simp only [replaceRuns] at hc
    have hl1 : ∀ c ∈ l, lowerFixed c := fun c hc => hl c (List.mem_cons_of_mem a hc)
    by_cases hw : isWhiteSpace a = true
    · rw [if_pos hw] at hc
      cases b with
      | true => exact ih hl1 true (by simpa using hc)
      | false =>
        rw [if_neg (by decide), List.mem_cons] at hc
        rcases hc with hc | hc
        · subst hc
          exact ⟨by decide, by decide!, by decide!⟩
        · exact ih hl1 true hc
    · rw [if_neg hw, List.mem_cons] at hc
      rcases hc with hc | hc
      · subst hc
        exact ⟨by simpa using hw, hl c (List.mem_cons_self c l)⟩
      · exact ih hl1 false hc

theorem dropWhile_clean (l : List Char) (h : ∀ c ∈ l, isWhiteSpace c = false) :
    l.dropWhile isWhiteSpace = l := by
  cases l with
  | nil => rfl
  | cons a l => simp [List.dropWhile, h a (List.mem_cons_self a l)]

theorem trim_clean (l : List Char) (h : ∀ c ∈ l, isWhiteSpace c = false) :
    trim l = l := by
  unfold trim
  rw [dropWhile_clean l h, dropWhile_clean l.reverse (by simpa using h), List.reverse_reverse]

theorem toLowerCase_clean (l : List Char) (h : ∀ c ∈ l, lowerFixed c) :
    toLowerCase l = l :=
  lowerFrom_of_fixed l [] h

theorem replaceRuns_false_clean (l : List Char) (h : ∀ c ∈ l, isWhiteSpace c = false) :
    replaceRuns false l = l := by
  induction l with
  | nil => rfl
  | cons a l ih =>
    simp only [replaceRuns, h a (List.mem_cons_self a l), Bool.false_eq_true, if_false]
    rw [ih fun c hc => h c (List.mem_cons_of_mem a hc)]

theorem normalizeChars_idem (l : List Char) :
    normalizeChars (normalizeChars l) = normalizeChars l := by
  have hclean : ∀ c ∈ normalizeChars l, isWhiteSpace c = false ∧ lowerFixed c :=
    fun c hc => replaceRuns_clean (toLowerCase (trim l))
      (fun d hd => lowerFrom_fixed (trim l) [] d hd) false c hc
  have hws : ∀ c ∈ normalizeChars l, isWhiteSpace c = false := fun c hc => (hclean c hc).1
  have hlow : ∀ c ∈ normalizeChars l, lowerFixed c := fun c hc => (hclean c hc).2
  generalize normalizeChars l = y at hws hlow
  unfold normalizeChars replaceWhiteSpace
  rw [trim_clean y hws, toLowerCase_clean y hlow, replaceRuns_false_clean y hws]

/-- C4: the normalisation of line 54 is a total function that is idempotent,
`normalize (normalize x) = normalize x` for every string `x`, and it sends the
empty string to the empty string. -/
theorem normalize_idempotent :
    (∀ x : String, normalize (normalize x) = normalize x) ∧ normalize "" = "" := by
  refine ⟨fun x => ?_, by decide⟩
  show (⟨normalizeChars (normalizeChars x.data)⟩ : String) = ⟨normalizeChars x.data⟩
  rw [normalizeChars_idem]

/-! ## Parsing the input field -/

theorem forEachBody_eq (snap cur : AppState) (p : String) :
    forEachBody snap cur p =
      if p ≠ "" ∧ p ∉ snap.selectedSymptoms then
        if p ∈ snap.availableSymptoms then
          { cur with selectedSymptoms := setAdd cur.selectedSymptoms p, error := "" }
        else { cur with error := invalidSymptomMessage p }
      else cur := by
  unfold forEachBody addSymptom
  by_cases h1 : p = "" <;> by_cases h2 : p ∈ snap.selectedSymptoms <;>
    by_cases h3 : p ∈ snap.availableSymptoms <;> simp [h1, h2, h3]

theorem mem_setAdd (l : List String) (p x : String) :
    x ∈ setAdd l p ↔ x ∈ l ∨ x = p := by
  unfold setAdd
  by_cases h : p ∈ l
  · have hc : l.contains p = true := by simpa using h
    rw [if_pos hc]
    constructor
    · exact Or.inl
    · rintro (hx | rfl)
      · exact hx
      · exact h
  · have hc : ¬ l.contains p = true := by simpa using h
    rw [if_neg hc]
    simp

theorem foldl_forEachBody_mem (snap : AppState) (ps : List String) (cur : AppState)
    (x : String) :
    x ∈ (ps.foldl (forEachBody snap) cur).selectedSymptoms ↔
      x ∈ cur.selectedSymptoms ∨
        (x ∈ ps ∧ x ≠ "" ∧ x ∉ snap.selectedSymptoms ∧ x ∈ snap.availableSymptoms) := by
  induction ps generalizing cur with
  | nil => simp
  | cons p ps ih =>
    rw [List.foldl_cons, ih, forEachBody_eq]
    by_cases h1 : p ≠ "" ∧ p ∉ snap.selectedSymptoms
    · by_cases h3 : p ∈ snap.availableSymptoms
      · rw [if_pos h1, if_pos h3]
        simp only [mem_setAdd, List.mem_cons]
        constructor
        · rintro ((hx | rfl) | ⟨hx, h⟩)
          · exact Or.inl hx
          · exact Or.inr ⟨Or.inl rfl, h1.1, h1.2, h3⟩
          · exact Or.inr ⟨Or.inr hx, h⟩
        · rintro (hx | ⟨rfl | hx, h⟩)
          · exact Or.inl (Or.inl hx)
          · exact Or.inl (Or.inr rfl)
          · exact Or.inr ⟨hx, h⟩
      · rw [if_pos h1, if_neg h3]
        simp only [List.mem_cons]
        constructor
        · rintro (hx | ⟨hx, h⟩)
          · exact Or.inl hx
          · exact Or.inr ⟨Or.inr hx, h⟩
        · rintro (hx | ⟨rfl | hx, h⟩)
          · exact Or.inl hx
          · exact absurd h.2.2 h3
          · exact Or.inr ⟨hx, h⟩
    · rw [if_neg h1]
      simp only [List.mem_cons]
      constructor
      · rintro (hx | ⟨hx, h⟩)
        · exact Or.inl hx
        · exact Or.inr ⟨Or.inr hx, h⟩
      · rintro (hx | ⟨rfl | hx, h⟩)
        · exact Or.inl hx
        · exact absurd ⟨h.1, h.2.1⟩ h1
        · exact Or.inr ⟨hx, h⟩

theorem foldl_forEachBody_append (snap : AppState) (ps : List String) (cur : AppState) :
    ∃ added : List String,
      (ps.foldl (forEachBody snap) cur).selectedSymptoms = cur.selectedSymptoms ++ added ∧
      added.Nodup ∧ ∀ x ∈ added, x ∉ cur.selectedSymptoms := by
  induction ps generalizing cur with
  | nil => exact ⟨[], by simp⟩
  | cons p ps ih =>
    rw [List.foldl_cons]
    obtain ⟨added, heq, hnd, hdis⟩ := ih (forEachBody snap cur p)
    rw [heq]
    rw [forEachBody_eq] at hdis ⊢
    by_cases h1 : p ≠ "" ∧ p ∉ snap.selectedSymptoms
    · by_cases h3 : p ∈ snap.availableSymptoms
      · rw [if_pos h1, if_pos h3] at hdis ⊢
        by_cases h4 : p ∈ cur.selectedSymptoms
        · have : setAdd cur.selectedSymptoms p = cur.selectedSymptoms := by
            simp [setAdd, h4]
          simp only [this] at hdis ⊢
          exact ⟨added, rfl, hnd, hdis⟩
        · have : setAdd cur.selectedSymptoms p = cur.selectedSymptoms ++ [p] := by
            simp [setAdd, h4]
          simp only [this] at hdis ⊢
          refine ⟨p :: added, by simp, ?_, ?_⟩
          · refine List.nodup_cons.mpr ⟨fun hp => hdis p hp (by simp), hnd⟩
          · intro x hx
            rcases List.mem_cons.mp hx with rfl | hx
            · exact h4
            · exact fun hc => hdis x hx (by simp [hc])
      · rw [if_pos h1, if_neg h3] at hdis ⊢
        exact ⟨added, rfl, hnd, hdis⟩
    · rw [if_neg h1] at hdis ⊢
      exact ⟨added, rfl, hnd, hdis⟩

theorem mem_splitSymptoms (r x : String) :
    x ∈ splitSymptoms r ↔ ∃ piece ∈ splitComma r.data, x = ⟨normalizeChars piece⟩ := by
  unfold splitSymptoms
  simp only [List.mem_map]
  constructor
  · rintro ⟨p, hp, rfl⟩
    exact ⟨p, hp, rfl⟩
  · rintro ⟨p, hp, rfl⟩
    exact ⟨p, hp, rfl⟩

theorem forEachBody_inputValue (snap cur : AppState) (v p : String) :
    forEachBody snap { cur with inputValue := v } p =
      { forEachBody snap cur p with inputValue := v } := by
  rw [forEachBody_eq, forEachBody_eq]
  split_ifs <;> rfl

theorem foldl_forEachBody_inputValue (snap : AppState) (ps : List String) (cur : AppState)
    (v : String) :
    ps.foldl (forEachBody snap) { cur with inputValue := v } =
      { ps.foldl (forEachBody snap) cur with inputValue := v } := by
  induction ps generalizing cur with
  | nil => rfl
  | cons p ps ih => rw [List.foldl_cons, List.foldl_cons, forEachBody_inputValue, ih]

theorem foldl_forEachBody_error (snap : AppState) (ps : List String) (cur : AppState) :
    (ps.foldl (forEachBody snap) cur).error =
      match (ps.filter fun symptom =>
          symptom ≠ "" ∧ !snap.selectedSymptoms.contains symptom).getLast? with
      | none => cur.error
      | some p =>
        if snap.availableSymptoms.contains p then "" else invalidSymptomMessage p := by
  induction ps using List.reverseRecOn with
  | nil => rfl
  | append_singleton ps p ih =>
    rw [List.foldl_append, List.foldl_cons, List.foldl_nil, List.filter_append,
      forEachBody_eq]
    by_cases h1 : p ≠ "" ∧ p ∉ snap.selectedSymptoms
    · have hf : ([p].filter fun symptom =>
          symptom ≠ "" ∧ !snap.selectedSymptoms.contains symptom) = [p] := by
        simp [List.filter, h1.1, h1.2]
      rw [hf, List.getLast?_append, if_pos h1]
      by_cases h3 : p ∈ snap.availableSymptoms
      · simp [h3]
      · simp [h3]
    · have hf : ([p].filter fun symptom =>
          symptom ≠ "" ∧ !snap.selectedSymptoms.contains symptom) = [] := by
        have : ¬ (p ≠ "" ∧ (!snap.selectedSymptoms.contains p) = true) := by simpa using h1
        simp only [List.filter, this, decide_False]
      rw [hf, List.append_nil, if_neg h1, ih]

/-! ## Invariants of the running component -/

theorem foldl_forEachBody_frame (snap : AppState) (ps : List String) (cur : AppState) :
    (ps.foldl (forEachBody snap) cur).availableSymptoms = cur.availableSymptoms ∧
    (ps.foldl (forEachBody snap) cur).loading = cur.loading ∧
    (ps.foldl (forEachBody snap) cur).results = cur.results := by
  induction ps generalizing cur with
  | nil => exact ⟨rfl, rfl, rfl⟩
  | cons p ps ih =>
    rw [List.foldl_cons]
    obtain ⟨h1, h2, h3⟩ := ih (forEachBody snap cur p)
    rw [h1, h2, h3, forEachBody_eq]
    split_ifs <;> exact ⟨rfl, rfl, rfl⟩

theorem addSymptom_eq (snap cur : AppState) (p : String) :
    addSymptom snap p cur =
      if p ∈ snap.selectedSymptoms then cur
      else if p ∈ snap.availableSymptoms then
        { cur with selectedSymptoms := setAdd cur.selectedSymptoms p, error := "" }
      else { cur with error := invalidSymptomMessage p } := by
  unfold addSymptom
  by_cases h2 : p ∈ snap.selectedSymptoms <;>
    by_cases h3 : p ∈ snap.availableSymptoms <;> simp [h2, h3]

theorem Inv_app (s : Sys) (a : AppState) (l : List PredictRequest) (h : Inv s)
    (hav : a.availableSymptoms = s.app.availableSymptoms)
    (hsel : ∀ x ∈ a.selectedSymptoms,
      x ∈ s.app.selectedSymptoms ∨ x ∈ s.app.availableSymptoms)
    (hres : a.loading = true → a.results = Json.null) :
    Inv { app := a, loadPending := s.loadPending, inFlight := l } := by
  obtain ⟨h1, h2, _⟩ := h
  refine ⟨fun hp => ?_, fun x hx => ?_, hres⟩
  · show a.availableSymptoms = []
    rw [hav]
    exact h1 hp
  · show x ∈ a.availableSymptoms
    rw [hav]
    rcases hsel x hx with hx | hx
    · exact h2 x hx
    · exact hx

theorem addSymptomsFromInput_frame (s : Sys) (cur : AppState) (h : Inv s)
    (hav : cur.availableSymptoms = s.app.availableSymptoms)
    (hsel : cur.selectedSymptoms = s.app.selectedSymptoms)
    (hl : cur.loading = s.app.loading) (hr : cur.results = s.app.results)
    (l : List PredictRequest) :
    Inv { app := addSymptomsFromInput s.app cur, loadPending := s.loadPending,
          inFlight := l } := by
  obtain ⟨f1, f2, f3⟩ := foldl_forEachBody_frame s.app (splitSymptoms s.app.inputValue) cur
  refine Inv_app s _ l h ?_ ?_ ?_
  · show ((splitSymptoms s.app.inputValue).foldl (forEachBody s.app) cur).availableSymptoms = _
    rw [f1, hav]
  · intro x hx
    have hx : x ∈ ((splitSymptoms s.app.inputValue).foldl
        (forEachBody s.app) cur).selectedSymptoms := hx
    rw [foldl_forEachBody_mem, hsel] at hx
    rcases hx with hx | ⟨_, _, _, hx⟩
    · exact Or.inl hx
    · exact Or.inr hx
  · show ((splitSymptoms s.app.inputValue).foldl (forEachBody s.app) cur).loading = true →
      ((splitSymptoms s.app.inputValue).foldl (forEachBody s.app) cur).results = Json.null
    rw [f2, f3, hl, hr]
    exact h.2.2

theorem predictDiseaseResume_frame (base : String) (r : FetchResult) (cur : AppState) :
    (predictDiseaseResume base r cur).selectedSymptoms = cur.selectedSymptoms ∧
    (predictDiseaseResume base r cur).availableSymptoms = cur.availableSymptoms ∧
    (predictDiseaseResume base r cur).loading = false := by
  cases r with
  | rejected message => exact ⟨rfl, rfl, rfl⟩
  | response status body =>
    unfold predictDiseaseResume
    by_cases hok : statusOk status = true
    · cases body with
      | error message => simp [hok]
      | ok data => simp [hok]
    · simp [hok]

theorem Inv_step (base : String) (s t : Sys) (e : Event) (h : Inv s)
    (hstep : Sys.call base s e = some t) : Inv t := by
  cases e with
  | symptomsLoaded r =>
    simp only [Sys.call] at hstep
    split at hstep
    · rename_i hp
      injection hstep with hstep
      subst hstep
      have hempty : s.app.selectedSymptoms = [] := by
        have hsub := h.2.1
        rw [h.1 hp] at hsub
        exact List.eq_nil_iff_forall_not_mem.mpr fun x hx => by simpa using hsub x hx
      cases r with
      | none => exact ⟨fun hf => by simp at hf, fun x hx => by
          have hx : x ∈ s.app.selectedSymptoms := hx
          rw [hempty] at hx
          simp at hx, h.2.2⟩
      | some v => exact ⟨fun hf => by simp at hf, fun x hx => by
          have hx : x ∈ s.app.selectedSymptoms := hx
          rw [hempty] at hx
          simp at hx, h.2.2⟩
    · simp at hstep
  | addSymptom p =>
    simp only [Sys.call] at hstep
    injection hstep with hstep
    subst hstep
    refine Inv_app s _ s.inFlight h ?_ ?_ ?_
    · rw [addSymptom_eq]
      split_ifs <;> rfl
    · intro x hx
      rw [addSymptom_eq] at hx
      split_ifs at hx with h2 h3
      · exact Or.inl hx
      · rcases (mem_setAdd _ _ _).mp hx with hx | rfl
        · exact Or.inl hx
        · exact Or.inr h3
      · exact Or.inl hx
    · rw [addSymptom_eq]
      split_ifs <;> exact h.2.2
  | removeSymptom p =>
    simp only [Sys.call] at hstep
    injection hstep with hstep
    subst hstep
    exact Inv_app s _ s.inFlight h rfl
      (fun x hx => Or.inl (List.mem_of_mem_erase hx)) h.2.2
  | addSymptomsFromInput =>
    simp only [Sys.call] at hstep
    injection hstep with hstep
    subst hstep
    exact addSymptomsFromInput_frame s s.app h rfl rfl rfl rfl s.inFlight
  | keyPress key =>
    simp only [Sys.call] at hstep
    injection hstep with hstep
    subst hstep
    unfold handleKeyPress
    split_ifs
    · exact addSymptomsFromInput_frame s s.app h rfl rfl rfl rfl s.inFlight
    · exact h
  | inputChange value =>
    simp only [Sys.call] at hstep
    injection hstep with hstep
    subst hstep
    unfold handleInputChange
    split_ifs
    · exact addSymptomsFromInput_frame s { s.app with inputValue := value } h
        rfl rfl rfl rfl s.inFlight
    · exact Inv_app s _ s.inFlight h rfl (fun x hx => Or.inl hx) h.2.2
  | predictDisease =>
    simp only [Sys.call, predictDisease] at hstep
    split_ifs at hstep
    · injection hstep with hstep
      subst hstep
      exact Inv_app s _ s.inFlight h rfl (fun x hx => Or.inl hx) h.2.2
    · injection hstep with hstep
      subst hstep
      exact Inv_app s _ _ h rfl (fun x hx => Or.inl hx) (fun _ => rfl)
  | predictSettled i r =>
    simp only [Sys.call] at hstep
    split at hstep
    · injection hstep with hstep
      subst hstep
      obtain ⟨f1, f2, f3⟩ := predictDiseaseResume_frame base r s.app
      exact Inv_app s _ _ h f2 (fun x hx => Or.inl (f1 ▸ hx))
        (fun hl => by rw [f3] at hl; simp at hl)
    · simp at hstep

theorem Reachable.inv {base : String} {s : Sys} (h : Reachable base s) : Inv s := by
  induction h with
  | start => exact ⟨fun _ => rfl, fun x hx => by simp [Sys.start, initialState] at hx,
      fun hl => by simp [Sys.start, initialState] at hl⟩
  | step e _ next ih => exact Inv_step base _ _ e ih next

theorem Sys.call_of_step {base : String} {s t : Sys} {e : Event}
    (h : Sys.step base s e = some t) : Sys.call base s e = some t := by
  unfold Sys.step at h
  split_ifs at h
  exact h

theorem UiReachable.reachable {base : String} {s : Sys} (h : UiReachable base s) :
    Reachable base s := by
  induction h with
  | start => exact Reachable.start
  | step e _ next ih => exact Reachable.step e ih (Sys.call_of_step next)

theorem UiReachable.alongEvents {base : String} {s : Sys} (h : UiReachable base s)
    (es : List Event) : UiReachable base (App.afterEvents base s es) := by
  induction es generalizing s with
  | nil => exact h
  | cons e es ih =>
    unfold App.afterEvents
    split
    · exact h
    · rename_i s1 hs
      exact ih (UiReachable.step e h hs)

theorem Reachable.afterEvents {base : String} {s : Sys} (h : Reachable base s)
    (es : List Event) : Reachable base (App.afterEvents base s es) := by
  induction es generalizing s with
  | nil => exact h
  | cons e es ih =>
    unfold App.afterEvents
    split
    · exact h
    · rename_i s1 hs
      exact ih (Reachable.step e h (Sys.call_of_step hs))

theorem predictionFailedMessage_ne_empty (base cause : String) :
    predictionFailedMessage base cause ≠ "" := by
  intro h
  have hlen := congrArg String.length h
  simp only [predictionFailedMessage, String.length_append] at hlen
  have h19 : "Prediction failed: ".length = 19 := by decide
  rw [h19] at hlen
  have h0 : "".length = 0 := rfl
  omega

theorem status_infix_predictionFailedMessage (base : String) (status : Nat) :
    (toString status).data <:+:
      (predictionFailedMessage base (serverErrorCause status)).data := by
  refine ⟨"Prediction failed: Server error: ".data,
    ". Please make sure the API is running on ".data ++ base.data, ?_⟩
  simp [predictionFailedMessage, serverErrorCause, String.data_append]

/-! ## The input value and the pending requests -/

theorem splitComma_of_no_comma (l : List Char) (h : l.contains ',' = false) :
    splitComma l = [l] := by
  induction l with
  | nil => rfl
  | cons c cs ih =>
    simp only [List.contains_cons, Bool.or_eq_false_iff, beq_eq_false_iff_ne, ne_eq] at h
    have hc : ¬ c = ',' := fun hc => h.1 hc.symm
    simp only [splitComma, if_neg hc, ih h.2]

theorem splitSymptoms_of_no_comma (r : String) (h : includesComma r = false) :
    splitSymptoms r = [normalize r] := by
  unfold splitSymptoms
  rw [splitComma_of_no_comma r.data h]
  rfl

theorem addSymptomsFromInput_fields (snap cur : AppState) :
    (addSymptomsFromInput snap cur).loading = cur.loading ∧
    (addSymptomsFromInput snap cur).inputValue = "" :=
  ⟨(foldl_forEachBody_frame snap (splitSymptoms snap.inputValue) cur).2.1, rfl⟩

theorem addSymptom_fields (snap cur : AppState) (p : String) :
    (addSymptom snap p cur).loading = cur.loading ∧
    (addSymptom snap p cur).inputValue = cur.inputValue := by
  rw [addSymptom_eq]
  split_ifs <;> exact ⟨rfl, rfl⟩

theorem handleKeyPress_fields (snap cur : AppState) (key : String)
    (h : includesComma cur.inputValue = false) :
    (handleKeyPress snap key cur).loading = cur.loading ∧
    includesComma (handleKeyPress snap key cur).inputValue = false := by
  unfold handleKeyPress
  split_ifs
  · exact ⟨(addSymptomsFromInput_fields snap cur).1, by
      rw [(addSymptomsFromInput_fields snap cur).2]; rfl⟩
  · exact ⟨rfl, h⟩

theorem handleInputChange_fields (snap cur : AppState) (value : String) :
    (handleInputChange snap value cur).loading = cur.loading ∧
    includesComma (handleInputChange snap value cur).inputValue = false := by
  unfold handleInputChange
  split_ifs with hv
  · exact ⟨(addSymptomsFromInput_fields snap _).1, by
      rw [(addSymptomsFromInput_fields snap _).2]; rfl⟩
  · exact ⟨rfl, by simpa using hv⟩

theorem predictDiseaseResume_inputValue (base : String) (r : FetchResult) (cur : AppState) :
    (predictDiseaseResume base r cur).inputValue = cur.inputValue := by
  cases r with
  | rejected message => rfl
  | response status body =>
    unfold predictDiseaseResume
    by_cases hok : statusOk status = true
    · cases body with
      | error message => simp [hok]
      | ok data => simp [hok]
    · simp [hok]

theorem loadSymptomSuggestionsResume_fields (base : String) (r : Option (List String))
    (cur : AppState) :
    (loadSymptomSuggestionsResume base r cur).loading = cur.loading ∧
    (loadSymptomSuggestionsResume base r cur).inputValue = cur.inputValue := by
  cases r <;> exact ⟨rfl, rfl⟩

theorem Reachable.inputValue_no_comma {base : String} {s : Sys} (h : Reachable base s) :
    includesComma s.app.inputValue = false := by
  induction h with
  | start => rfl
  | @step s t e _ next ih =>
    cases e with
    | symptomsLoaded r =>
      simp only [Sys.call] at next
      split_ifs at next
      injection next with next
      subst next
      show includesComma (loadSymptomSuggestionsResume base r s.app).inputValue = false
      rw [(loadSymptomSuggestionsResume_fields base r s.app).2]
      exact ih
    | addSymptom p =>
      simp only [Sys.call] at next
      injection next with next
      subst next
      show includesComma (addSymptom s.app p s.app).inputValue = false
      rw [(addSymptom_fields s.app s.app p).2]
      exact ih
    | removeSymptom p =>
      simp only [Sys.call] at next
      injection next with next
      subst next
      exact ih
    | addSymptomsFromInput =>
      simp only [Sys.call] at next
      injection next with next
      subst next
      rfl
    | keyPress key =>
      simp only [Sys.call] at next
      injection next with next
      subst next
      exact (handleKeyPress_fields s.app s.app key ih).2
    | inputChange value =>
      simp only [Sys.call] at next
      injection next with next
      subst next
      exact (handleInputChange_fields s.app s.app value).2
    | predictDisease =>
      simp only [Sys.call, predictDisease] at next
      split_ifs at next
      · injection next with next
        subst next
        exact ih
      · injection next with next
        subst next
        exact ih
    | predictSettled i r =>
      simp only [Sys.call] at next
      split_ifs at next
      injection next with next
      subst next
      show includesComma (predictDiseaseResume base r s.app).inputValue = false
      rw [predictDiseaseResume_inputValue]
      exact ih

theorem UiReachable.pending {base : String} {s : Sys} (h : UiReachable base s) :
    (s.app.loading = true → s.inFlight.length = 1) ∧
    (s.app.loading = false → s.inFlight = []) := by
  induction h with
  | start => exact ⟨fun hl => by simp [Sys.start, initialState] at hl, fun _ => rfl⟩
  | @step s t e _ next ih =>
    unfold Sys.step at next
    split_ifs at next with hen
    cases e with
    | symptomsLoaded r =>
      simp only [Sys.call] at next
      split_ifs at next
      injection next with next
      subst next
      show ((loadSymptomSuggestionsResume base r s.app).loading = true → _) ∧
        ((loadSymptomSuggestionsResume base r s.app).loading = false → _)
      rw [(loadSymptomSuggestionsResume_fields base r s.app).1]
      exact ih
    | addSymptom p =>
      simp only [Sys.call] at next
      injection next with next
      subst next
      show ((addSymptom s.app p s.app).loading = true → _) ∧
        ((addSymptom s.app p s.app).loading = false → _)
      rw [(addSymptom_fields s.app s.app p).1]
      exact ih
    | removeSymptom p =>
      simp only [Sys.call] at next
      injection next with next
      subst next
      exact ih
    | addSymptomsFromInput =>
      simp only [Sys.call] at next
      injection next with next
      subst next
      show ((addSymptomsFromInput s.app s.app).loading = true → _) ∧
        ((addSymptomsFromInput s.app s.app).loading = false → _)
      rw [(addSymptomsFromInput_fields s.app s.app).1]
      exact ih
    | keyPress key =>
      simp only [Sys.call] at next
      injection next with next
      subst next
      show ((handleKeyPress s.app key s.app).loading = true → _) ∧
        ((handleKeyPress s.app key s.app).loading = false → _)
      have hl : (handleKeyPress s.app key s.app).loading = s.app.loading := by
        unfold handleKeyPress
        split_ifs
        · exact (addSymptomsFromInput_fields s.app s.app).1
        · rfl
      rw [hl]
      exact ih
    | inputChange value =>
      simp only [Sys.call] at next
      injection next with next
      subst next
      show ((handleInputChange s.app value s.app).loading = true → _) ∧
        ((handleInputChange s.app value s.app).loading = false → _)
      rw [(handleInputChange_fields s.app s.app value).1]
      exact ih
    | predictDisease =>
      have hnl : s.app.loading = false := by
        simp only [Event.enabled, analyzeDisabled, Bool.not_eq_true', Bool.or_eq_false_iff] at hen
        exact hen.1
      simp only [Sys.call, predictDisease] at next
      split_ifs at next
      · injection next with next
        subst next
        exact ih
      · injection next with next
        subst next
        refine ⟨fun _ => ?_, fun hl => by simp at hl⟩
        show (s.inFlight ++ [_]).length = 1
        rw [ih.2 hnl]
        rfl
    | predictSettled i r =>
      simp only [Sys.call] at next
      split_ifs at next with hi
      injection next with next
      subst next
      refine ⟨fun hl => ?_, fun _ => ?_⟩
      · have hl : (predictDiseaseResume base r s.app).loading = true := hl
        rw [(predictDiseaseResume_frame base r s.app).2.2] at hl
        simp at hl
      · show s.inFlight.eraseIdx i = []
        by_cases hload : s.app.loading = true
        · have hlen := ih.1 hload
          match hlist : s.inFlight, hlen, hi with
          | [q], _, hi =>
            have hi0 : i = 0 := by simpa using hi
            subst hi0
            rfl
        · have hnil := ih.2 (by simpa using hload)
          rw [hnil] at hi
          simp at hi

theorem step_predictDisease (base : String) (s : Sys) (hl : s.app.loading = false)
    (hsel : ¬ s.app.selectedSymptoms.length = 0) :
    ∃ t : Sys, Sys.step base s Event.predictDisease = some t ∧
      t.app.selectedSymptoms = s.app.selectedSymptoms ∧
      t.inFlight = s.inFlight ++
        [{ url := base ++ "/predict", symptoms := s.app.selectedSymptoms }] := by
  refine ⟨{ s with
      app := { s.app with loading := true, error := "", results := Json.null },
      inFlight := s.inFlight ++
        [{ url := base ++ "/predict", symptoms := s.app.selectedSymptoms }] }, ?_, rfl, rfl⟩
  simp only [Sys.step, Event.enabled, analyzeDisabled, Sys.call, predictDisease, hl,
    if_neg hsel, Bool.false_or, decide_eq_false hsel, Bool.not_false, if_true]

theorem step_predictSettled (base : String) (s : Sys) (i : Nat) (r : FetchResult)
    (hi : i < s.inFlight.length) :
    ∃ t : Sys, Sys.step base s (Event.predictSettled i r) = some t ∧
      t.app = predictDiseaseResume base r s.app := by
  refine ⟨{ s with app := predictDiseaseResume base r s.app,
                   inFlight := s.inFlight.eraseIdx i }, ?_, rfl⟩
  simp only [Sys.step, Event.enabled, Sys.call, if_pos hi, if_true]

/-! ## Claims on the symptom selection -/

/-- C1: after `addSymptomsFromInput` the selected set holds exactly the prior
members and every non-empty normalised comma-separated piece of the input value
that is in the vocabulary; the prior members keep their place and each new
member is appended once.  On vocabulary `headache, fever, cough`, nothing
selected and input `"headache, fever ,,  cough"` the result is the three
symptoms with an empty error message. -/
theorem addSymptomsFromInput_selected :
    (∀ st : AppState,
      (∀ x : String, x ∈ (addSymptomsFromInput st st).selectedSymptoms ↔
        x ∈ st.selectedSymptoms ∨
          (x ≠ "" ∧ x ∈ st.availableSymptoms ∧
            ∃ piece ∈ splitComma st.inputValue.data, x = normalize ⟨piece⟩)) ∧
      ∃ added : List String,
        (addSymptomsFromInput st st).selectedSymptoms = st.selectedSymptoms ++ added ∧
        added.Nodup ∧ ∀ x ∈ added, x ∉ st.selectedSymptoms) ∧
    (addSymptomsFromInput (typed "headache, fever ,,  cough")
        (typed "headache, fever ,,  cough")).selectedSymptoms
      = ["headache", "fever", "cough"] ∧
    (addSymptomsFromInput (typed "headache, fever ,,  cough")
        (typed "headache, fever ,,  cough")).error = "" := by
  refine ⟨fun st => ⟨fun x => ?_, ?_⟩, by decide, by decide⟩
  · show x ∈ ((splitSymptoms st.inputValue).foldl (forEachBody st) st).selectedSymptoms ↔ _
    rw [foldl_forEachBody_mem, mem_splitSymptoms]
    constructor
    · rintro (hx | ⟨hp, hne, _, hv⟩)
      · exact Or.inl hx
      · exact Or.inr ⟨hne, hv, hp⟩
    · rintro (hx | ⟨hne, hv, hp⟩)
      · exact Or.inl hx
      · by_cases hs : x ∈ st.selectedSymptoms
        · exact Or.inl hs
        · exact Or.inr ⟨hp, hne, hs, hv⟩
  · exact foldl_forEachBody_append st (splitSymptoms st.inputValue) st

/-- C2: in every state that handler calls and settlements lead to, the input
value holds no comma, so `addSymptomsFromInput` hands at most one piece to
`addSymptom`; when it rejects a piece, that piece is the last one rejected and
the error message at the end is the rejection naming it.  Evaluated on the
input `"headache, not_a_symptom"` with vocabulary `headache, fever, cough`, the
function leaves the selection `headache` and the message naming
`not_a_symptom`. -/
theorem addSymptomsFromInput_last_rejection (base : String) (s : Sys)
    (hreach : Reachable base s) (hrej : rejected s.app ≠ []) :
    (∃ p : String, (rejected s.app).getLast? = some p ∧
      (addSymptomsFromInput s.app s.app).error = invalidSymptomMessage p) ∧
    (addSymptomsFromInput (typed "headache, not_a_symptom")
        (typed "headache, not_a_symptom")).selectedSymptoms = ["headache"] ∧
    (addSymptomsFromInput (typed "headache, not_a_symptom")
        (typed "headache, not_a_symptom")).error = invalidSymptomMessage "not_a_symptom" := by
  refine ⟨?_, by decide!, by decide!⟩
  have hsplit := splitSymptoms_of_no_comma s.app.inputValue hreach.inputValue_no_comma
  have herr : (addSymptomsFromInput s.app s.app).error =
      (forEachBody s.app s.app (normalize s.app.inputValue)).error := by
    show ((splitSymptoms s.app.inputValue).foldl (forEachBody s.app) s.app).error = _
    rw [hsplit]
    rfl
  unfold rejected attempted at hrej ⊢
  rw [hsplit] at hrej ⊢
  by_cases h1 : normalize s.app.inputValue ≠ "" ∧
      normalize s.app.inputValue ∉ s.app.selectedSymptoms
  · by_cases h3 : normalize s.app.inputValue ∈ s.app.availableSymptoms
    · exact absurd (by simp [List.filter, h1.1, h1.2, h3]) hrej
    · refine ⟨normalize s.app.inputValue, by simp [List.filter, h1.1, h1.2, h3], ?_⟩
      rw [herr, forEachBody_eq, if_pos h1, if_neg h3]
  · have h1c : ¬ (normalize s.app.inputValue ≠ "" ∧
        (!s.app.selectedSymptoms.contains (normalize s.app.inputValue)) = true) := by
      simpa using h1
    exact absurd (by simp only [List.filter, h1c, decide_False]) hrej

/-- C2 at a sample: with `fever` selected and `not_a_symptom` typed into the
input field, `addSymptomsFromInput` rejects the piece and reports it. -/
theorem addSymptomsFromInput_last_rejection_sample :
    Reachable defaultApiBaseUrl
      (afterEvents defaultApiBaseUrl feverSelected [Event.inputChange "not_a_symptom"]) ∧
    rejected (afterEvents defaultApiBaseUrl feverSelected
      [Event.inputChange "not_a_symptom"]).app ≠ [] ∧
    ∃ p : String,
      (rejected (afterEvents defaultApiBaseUrl feverSelected
        [Event.inputChange "not_a_symptom"]).app).getLast? = some p ∧
      (addSymptomsFromInput
        (afterEvents defaultApiBaseUrl feverSelected [Event.inputChange "not_a_symptom"]).app
        (afterEvents defaultApiBaseUrl feverSelected [Event.inputChange "not_a_symptom"]).app).error
        = invalidSymptomMessage p :=
  ⟨(Reachable.start.afterEvents _).afterEvents _, by decide!,
   (addSymptomsFromInput_last_rejection defaultApiBaseUrl
      (afterEvents defaultApiBaseUrl feverSelected [Event.inputChange "not_a_symptom"])
      ((Reachable.start.afterEvents _).afterEvents _) (by decide!)).1⟩

/-- C10: when the new input value `v` contains a comma, `handleInputChange`
parses the input value of the render, not `v`: the outcome is that of
`addSymptomsFromInput` on the state before the change, the same for every such
`v`, with the input value empty; from an empty input field nothing is selected
and the error message stays. -/
theorem handleInputChange_parses_previous (st : AppState) (v : String)
    (hv : includesComma v = true) :
    handleInputChange st v st = addSymptomsFromInput st st ∧
    (∀ w : String, includesComma w = true →
      handleInputChange st w st = handleInputChange st v st) ∧
    (handleInputChange st v st).inputValue = "" ∧
    (st.inputValue = "" →
      (handleInputChange st v st).selectedSymptoms = st.selectedSymptoms ∧
      (handleInputChange st v st).error = st.error) := by
  have key : ∀ w : String, includesComma w = true →
      handleInputChange st w st = addSymptomsFromInput st st := by
    intro w hw
    unfold handleInputChange
    simp only [hw, if_true]
    unfold addSymptomsFromInput
    simp only [foldl_forEachBody_inputValue]
  refine ⟨key v hv, fun w hw => by rw [key w hw, key v hv], ?_, ?_⟩
  · rw [key v hv]
    rfl
  · intro hempty
    rw [key v hv]
    unfold addSymptomsFromInput
    rw [hempty]
    exact ⟨rfl, rfl⟩

/-- C10 at a sample: pasting `"headache, fever"` into the empty input field of
the sample state selects nothing and empties the field. -/
theorem handleInputChange_parses_previous_sample :
    includesComma "headache, fever" = true ∧
    (handleInputChange (typed "") "headache, fever" (typed "")).selectedSymptoms = [] ∧
    (handleInputChange (typed "") "headache, fever" (typed "")).inputValue = "" :=
  ⟨by decide,
   ((handleInputChange_parses_previous (typed "") "headache, fever" (by decide)).2.2.2 rfl).1,
   (handleInputChange_parses_previous (typed "") "headache, fever" (by decide)).2.2.1⟩

/-- C3: in every state of the running component, `addSymptom` called with a
token that is not in the vocabulary (any token while the vocabulary is still
empty) leaves the selected set as it is and sets the error message to the
rejection naming the token. -/
theorem addSymptom_unknown (base : String) (s : Sys) (t : String)
    (hreach : Reachable base s) (ht : t ∉ s.app.availableSymptoms) :
    (addSymptom s.app t s.app).selectedSymptoms = s.app.selectedSymptoms ∧
    (addSymptom s.app t s.app).error = invalidSymptomMessage t ∧
    addSymptom s.app t s.app = { s.app with error := invalidSymptomMessage t } := by
  have hsel : t ∉ s.app.selectedSymptoms := fun h => ht (hreach.inv.2.1 t h)
  rw [addSymptom_eq, if_neg hsel, if_neg ht]
  exact ⟨rfl, rfl, rfl⟩

/-- C3 at a sample: with `headache, fever, cough` loaded and `fever` selected,
`addSymptom "not_a_symptom"` keeps the selection and reports the token. -/
theorem addSymptom_unknown_sample :
    Reachable defaultApiBaseUrl feverSelected ∧
    "not_a_symptom" ∉ feverSelected.app.availableSymptoms ∧
    (addSymptom feverSelected.app "not_a_symptom" feverSelected.app).selectedSymptoms
      = ["fever"] ∧
    (addSymptom feverSelected.app "not_a_symptom" feverSelected.app).error
      = "\"not_a_symptom\" is not a valid symptom. Please check the spelling." :=
  ⟨Reachable.start.afterEvents _, by decide,
   (addSymptom_unknown defaultApiBaseUrl feverSelected "not_a_symptom"
      (Reachable.start.afterEvents _) (by decide)).1,
   (addSymptom_unknown defaultApiBaseUrl feverSelected "not_a_symptom"
      (Reachable.start.afterEvents _) (by decide)).2.1⟩

/-! ## Claims on the prediction session -/

/-- C5, as stated, fails: after a successful prediction, typing a token that
is not in the vocabulary and pressing Enter leaves a stored result and a
non-empty error message side by side; doing so while a request is pending
leaves an error message while loading. -/
theorem result_and_error_together :
    (Reachable defaultApiBaseUrl
        (afterEvents defaultApiBaseUrl feverSelected
          [Event.predictDisease,
           Event.predictSettled 0 (FetchResult.response 200 (Except.ok fluJson)),
           Event.inputChange "not_a_symptom", Event.keyPress "Enter"]) ∧
      resultSet (afterEvents defaultApiBaseUrl feverSelected
          [Event.predictDisease,
           Event.predictSettled 0 (FetchResult.response 200 (Except.ok fluJson)),
           Event.inputChange "not_a_symptom", Event.keyPress "Enter"]).app = true ∧
      (afterEvents defaultApiBaseUrl feverSelected
          [Event.predictDisease,
           Event.predictSettled 0 (FetchResult.response 200 (Except.ok fluJson)),
           Event.inputChange "not_a_symptom", Event.keyPress "Enter"]).app.error ≠ "") ∧
    (Reachable defaultApiBaseUrl
        (afterEvents defaultApiBaseUrl feverSelected
          [Event.predictDisease, Event.inputChange "not_a_symptom", Event.keyPress "Enter"]) ∧
      (afterEvents defaultApiBaseUrl feverSelected
          [Event.predictDisease, Event.inputChange "not_a_symptom", Event.keyPress "Enter"]).app.loading = true ∧
      (afterEvents defaultApiBaseUrl feverSelected
          [Event.predictDisease, Event.inputChange "not_a_symptom", Event.keyPress "Enter"]).app.error ≠ "") :=
  ⟨⟨(Reachable.start.afterEvents _).afterEvents _, by decide, by decide⟩,
   ⟨(Reachable.start.afterEvents _).afterEvents _, by decide, by decide⟩⟩

/-- C5, amended: in every state of the running component no prediction result
is stored while loading. -/
theorem loading_has_no_result (base : String) (s : Sys) (hreach : Reachable base s)
    (hl : s.app.loading = true) :
    s.app.results = Json.null ∧ resultSet s.app = false := by
  have h := hreach.inv.2.2 hl
  exact ⟨h, by simp [resultSet, h]⟩

/-- C5, amended, at a sample: after `predictDisease` on the selection `fever`
the component is loading and stores no result. -/
theorem loading_has_no_result_sample :
    Reachable defaultApiBaseUrl
      (afterEvents defaultApiBaseUrl feverSelected [Event.predictDisease]) ∧
    (afterEvents defaultApiBaseUrl feverSelected [Event.predictDisease]).app.loading = true ∧
    resultSet (afterEvents defaultApiBaseUrl feverSelected [Event.predictDisease]).app
      = false :=
  ⟨(Reachable.start.afterEvents _).afterEvents _, by decide,
   (loading_has_no_result defaultApiBaseUrl
      (afterEvents defaultApiBaseUrl feverSelected [Event.predictDisease])
      ((Reachable.start.afterEvents _).afterEvents _) (by decide)).2⟩



/-- C6: in the running component a response never arrives for a superseded
request.  At most one request is pending; `predictDisease` can only be called
while none is, and once it has sent its request it cannot be called again until
the response settles; the response that settles is therefore that of the
latest call, and with a success status and a body that parses it becomes the
result.  Two calls in a row end with the second call's payload as the
result. -/
theorem predictDisease_never_superseded (base : String) (s : Sys)
    (hreach : UiReachable base s) :
    s.inFlight.length ≤ 1 ∧
    (∀ t : Sys, Sys.step base s Event.predictDisease = some t →
      s.inFlight = [] ∧
      t.inFlight = [{ url := base ++ "/predict", symptoms := s.app.selectedSymptoms }] ∧
      Sys.step base t Event.predictDisease = none) ∧
    (∀ (i : Nat) (r : FetchResult) (t : Sys),
      Sys.step base s (Event.predictSettled i r) = some t →
      i = 0 ∧ t.inFlight = [] ∧ t.app.loading = false ∧
      ∀ (status : Nat) (data : Json),
        r = FetchResult.response status (Except.ok data) → statusOk status = true →
        t.app.results = data) ∧
    (∀ (r1 : FetchResult) (status : Nat) (second : Json),
      analyzeDisabled s.app = false → statusOk status = true →
      ∃ t : Sys,
        Sys.run base s
          [Event.predictDisease, Event.predictSettled 0 r1, Event.predictDisease,
           Event.predictSettled 0 (FetchResult.response status (Except.ok second))] = some t ∧
        t.app.results = second ∧ t.app.loading = false ∧ t.inFlight = []) := by
  have hpend := hreach.pending
  refine ⟨?_, ?_, ?_, ?_⟩
  · by_cases hl : s.app.loading = true
    · rw [hpend.1 hl]
    · rw [hpend.2 (by simpa using hl)]
      simp
  · intro t ht
    unfold Sys.step at ht
    split_ifs at ht with hen
    have hen2 : s.app.loading = false ∧ ¬ s.app.selectedSymptoms.length = 0 := by
      simpa [Event.enabled, analyzeDisabled] using hen
    simp only [Sys.call, predictDisease, if_neg hen2.2] at ht
    injection ht with ht
    subst ht
    refine ⟨hpend.2 hen2.1, ?_, ?_⟩
    · show s.inFlight ++ [_] = [_]
      rw [hpend.2 hen2.1]
      rfl
    · simp [Sys.step, Event.enabled, analyzeDisabled]
  · intro i r t ht
    have hpt := (UiReachable.step _ hreach ht).pending
    unfold Sys.step at ht
    split_ifs at ht
    simp only [Sys.call] at ht
    split_ifs at ht with hi
    injection ht with ht
    subst ht
    have hloading : (predictDiseaseResume base r s.app).loading = false :=
      (predictDiseaseResume_frame base r s.app).2.2
    have hlen : s.inFlight.length ≤ 1 := by
      by_cases hl : s.app.loading = true
      · rw [hpend.1 hl]
      · rw [hpend.2 (by simpa using hl)]
        simp
    refine ⟨by omega, hpt.2 hloading, hloading, ?_⟩
    intro status data hr hok
    subst hr
    simp [predictDiseaseResume, hok]
  · intro r1 status second hen hok
    have hen2 : s.app.loading = false ∧ ¬ s.app.selectedSymptoms.length = 0 := by
      simpa [analyzeDisabled] using hen
    obtain ⟨s1, h1, hsel1, hs1⟩ := step_predictDisease base s hen2.1 hen2.2
    have hi1 : 0 < s1.inFlight.length := by
      rw [hs1]
      simp
    obtain ⟨s2, h2, ha2⟩ := step_predictSettled base s1 0 r1 hi1
    have hl2 : s2.app.loading = false := by
      rw [ha2]
      exact (predictDiseaseResume_frame base r1 s1.app).2.2
    have hsel2 : ¬ s2.app.selectedSymptoms.length = 0 := by
      rw [ha2, (predictDiseaseResume_frame base r1 s1.app).1]
      rw [hsel1]
      exact hen2.2
    obtain ⟨s3, h3, -, hs3⟩ := step_predictDisease base s2 hl2 hsel2
    have hi3 : 0 < s3.inFlight.length := by
      rw [hs3]
      simp
    obtain ⟨s4, h4, ha4⟩ := step_predictSettled base s3 0
      (FetchResult.response status (Except.ok second)) hi3
    have hreach4 : UiReachable base s4 :=
      UiReachable.step _ (UiReachable.step _ (UiReachable.step _
        (UiReachable.step _ hreach h1) h2) h3) h4
    have hl4 : s4.app.loading = false := by
      rw [ha4]
      exact (predictDiseaseResume_frame base _ s3.app).2.2
    refine ⟨s4, by simp only [Sys.run, h1, h2, h3, h4], ?_, hl4, hreach4.pending.2 hl4⟩
    rw [ha4]
    simp [predictDiseaseResume, hok]

/-- C6 at a sample: on the selection `fever`, a first call answered with `Cold`
and a second call answered with `Flu` end with `Flu` as the result. -/
theorem predictDisease_never_superseded_sample :
    UiReachable defaultApiBaseUrl feverSelected ∧
    analyzeDisabled feverSelected.app = false ∧ statusOk 200 = true ∧
    ∃ t : Sys,
      Sys.run defaultApiBaseUrl feverSelected
        [Event.predictDisease,
         Event.predictSettled 0 (FetchResult.response 200 (Except.ok coldJson)),
         Event.predictDisease,
         Event.predictSettled 0 (FetchResult.response 200 (Except.ok fluJson))] = some t ∧
      t.app.results = fluJson ∧ t.app.loading = false ∧ t.inFlight = [] :=
  ⟨UiReachable.start.alongEvents _, by decide, by decide,
   (predictDisease_never_superseded defaultApiBaseUrl feverSelected
      (UiReachable.start.alongEvents _)).2.2.2
      (FetchResult.response 200 (Except.ok coldJson)) 200 fluJson (by decide) (by decide)⟩

/-- C7, as stated, fails: a success response whose body is the JSON object
with no fields ends with that object stored as the result and an empty error
message, and one whose body is `null` ends with no result and an empty error
message; neither is an error state. -/
theorem malformed_payload_accepted :
    (predictDiseaseResume defaultApiBaseUrl (FetchResult.response 200 (Except.ok (Json.obj [])))
        (predictDisease defaultApiBaseUrl feverSelected.app feverSelected.app).1).error = "" ∧
    resultSet (predictDiseaseResume defaultApiBaseUrl
        (FetchResult.response 200 (Except.ok (Json.obj [])))
        (predictDisease defaultApiBaseUrl feverSelected.app feverSelected.app).1) = true ∧
    (predictDiseaseResume defaultApiBaseUrl (FetchResult.response 200 (Except.ok Json.null))
        (predictDisease defaultApiBaseUrl feverSelected.app feverSelected.app).1).error = "" := by
  decide

/-- C7, amended: when the response to a `predictDisease` call has a success
status, what happens depends on the body only through whether it parses.  In a
state where the call is still loading, a body that does not parse as JSON ends
in an error: loading is false, no result is stored and the error message is
the non-empty prediction failure text carrying the parser's message.  A body
that parses to a value carrying none of the fields the render reads (`null`,
the empty object, any array) is not treated as an error: loading is false, the
value is what `results` holds, and the message is left as it was when the
response arrived, which is the empty message when the response follows the
call at once. -/
theorem success_status_outcome (base : String) (s : Sys) (status : Nat)
    (hreach : Reachable base s) (hload : s.app.loading = true)
    (hok : statusOk status = true) :
    (∀ message : String,
      (predictDiseaseResume base (FetchResult.response status (Except.error message))
        s.app).loading = false ∧
      (predictDiseaseResume base (FetchResult.response status (Except.error message))
        s.app).results = Json.null ∧
      (predictDiseaseResume base (FetchResult.response status (Except.error message))
        s.app).error = predictionFailedMessage base message ∧
      (predictDiseaseResume base (FetchResult.response status (Except.error message))
        s.app).error ≠ "") ∧
    (∀ data : Json, carriesNoResultField data = true →
      (predictDiseaseResume base (FetchResult.response status (Except.ok data))
        s.app).loading = false ∧
      (predictDiseaseResume base (FetchResult.response status (Except.ok data))
        s.app).results = data ∧
      (predictDiseaseResume base (FetchResult.response status (Except.ok data))
        s.app).error = s.app.error) ∧
    (∀ (st : AppState) (data : Json), st.selectedSymptoms ≠ [] →
      carriesNoResultField data = true →
      (predictDiseaseResume base (FetchResult.response status (Except.ok data))
        (predictDisease base st st).1).error = "") := by
  refine ⟨fun message => ?_, fun data _ => ?_, fun st data hsel _ => ?_⟩
  · have herr : (predictDiseaseResume base (FetchResult.response status (Except.error message))
        s.app).error = predictionFailedMessage base message := by
      simp [predictDiseaseResume, hok]
    refine ⟨?_, ?_, herr, ?_⟩
    · simp [predictDiseaseResume, hok]
    · have hnull := hreach.inv.2.2 hload
      simp [predictDiseaseResume, hok, hnull]
    · rw [herr]
      exact predictionFailedMessage_ne_empty base message
  · refine ⟨?_, ?_, ?_⟩
    · simp [predictDiseaseResume, hok]
    · simp [predictDiseaseResume, hok]
    · simp [predictDiseaseResume, hok]
  · simp [predictDiseaseResume, predictDisease, hok, hsel]

/-- C7, amended, at a sample: with the call on the selection `fever` pending,
status 200 with a body that fails to parse ends in an error, and status 200
with the body `[]` ends with `[]` stored and no error message. -/
theorem success_status_outcome_sample :
    Reachable defaultApiBaseUrl
      (afterEvents defaultApiBaseUrl feverSelected [Event.predictDisease]) ∧
    (afterEvents defaultApiBaseUrl feverSelected [Event.predictDisease]).app.loading = true ∧
    statusOk 200 = true ∧
    (predictDiseaseResume defaultApiBaseUrl
        (FetchResult.response 200 (Except.error "Unexpected end of JSON input"))
        (afterEvents defaultApiBaseUrl feverSelected [Event.predictDisease]).app).error ≠ "" ∧
    (predictDiseaseResume defaultApiBaseUrl (FetchResult.response 200 (Except.ok (Json.arr [])))
        (afterEvents defaultApiBaseUrl feverSelected [Event.predictDisease]).app).results
      = Json.arr [] ∧
    (predictDiseaseResume defaultApiBaseUrl (FetchResult.response 200 (Except.ok (Json.arr [])))
        (afterEvents defaultApiBaseUrl feverSelected [Event.predictDisease]).app).error = "" :=
  ⟨(Reachable.start.afterEvents _).afterEvents _, by decide, by decide,
   ((success_status_outcome defaultApiBaseUrl
      (afterEvents defaultApiBaseUrl feverSelected [Event.predictDisease]) 200
      ((Reachable.start.afterEvents _).afterEvents _) (by decide) (by decide)).1
      "Unexpected end of JSON input").2.2.2,
   ((success_status_outcome defaultApiBaseUrl
      (afterEvents defaultApiBaseUrl feverSelected [Event.predictDisease]) 200
      ((Reachable.start.afterEvents _).afterEvents _) (by decide) (by decide)).2.1
      (Json.arr []) rfl).2.1,
   ((success_status_outcome defaultApiBaseUrl
      (afterEvents defaultApiBaseUrl feverSelected [Event.predictDisease]) 200
      ((Reachable.start.afterEvents _).afterEvents _) (by decide) (by decide)).2.1
      (Json.arr []) rfl).2.2⟩

/-- C8: a `predictDisease` call on a non-empty selection sets loading, clears
the error message and the result and sends the request; when the response has
a non-success status `n`, loading is false afterwards, no result is stored and
the error message is the prediction failure text, which contains the decimal
digits of `n`. -/
theorem non_success_status_outcome (base : String) (st : AppState) (status : Nat)
    (body : Except String Json) (hsel : st.selectedSymptoms ≠ [])
    (hbad : statusOk status = false) :
    ((predictDisease base st st).1.loading = true ∧
      (predictDisease base st st).1.error = "" ∧
      (predictDisease base st st).1.results = Json.null ∧
      (predictDisease base st st).2 =
        some { url := base ++ "/predict", symptoms := st.selectedSymptoms }) ∧
    (predictDiseaseResume base (FetchResult.response status body)
        (predictDisease base st st).1).loading = false ∧
    (predictDiseaseResume base (FetchResult.response status body)
        (predictDisease base st st).1).results = Json.null ∧
    (predictDiseaseResume base (FetchResult.response status body)
        (predictDisease base st st).1).error =
      predictionFailedMessage base (serverErrorCause status) ∧
    (toString status).data <:+:
      (predictDiseaseResume base (FetchResult.response status body)
        (predictDisease base st st).1).error.data := by
  have herr : (predictDiseaseResume base (FetchResult.response status body)
      (predictDisease base st st).1).error =
        predictionFailedMessage base (serverErrorCause status) := by
    simp [predictDiseaseResume, hbad]
  refine ⟨⟨?_, ?_, ?_, ?_⟩, ?_, ?_, herr, ?_⟩
  · simp [predictDisease, hsel]
  · simp [predictDisease, hsel]
  · simp [predictDisease, hsel]
  · simp [predictDisease, hsel]
  · simp [predictDiseaseResume, hbad]
  · simp [predictDiseaseResume, predictDisease, hbad, hsel]
  · rw [herr]
    exact status_infix_predictionFailedMessage base status

/-- C8 at a sample: on the selection `fever`, status 500 ends with loading
false, no result and a message containing `500`. -/
theorem non_success_status_outcome_sample :
    feverSelected.app.selectedSymptoms ≠ [] ∧ statusOk 500 = false ∧
    (predictDiseaseResume defaultApiBaseUrl (FetchResult.response 500 (Except.ok Json.null))
        (predictDisease defaultApiBaseUrl feverSelected.app feverSelected.app).1).error =
      "Prediction failed: Server error: 500. Please make sure the API is running on http://127.0.0.1:8000" ∧
    "500".data <:+:
      (predictDiseaseResume defaultApiBaseUrl (FetchResult.response 500 (Except.ok Json.null))
        (predictDisease defaultApiBaseUrl feverSelected.app feverSelected.app).1).error.data :=
  ⟨by decide, by decide,
   (non_success_status_outcome defaultApiBaseUrl feverSelected.app 500 (Except.ok Json.null)
      (by decide) (by decide)).2.2.2.1,
   (non_success_status_outcome defaultApiBaseUrl feverSelected.app 500 (Except.ok Json.null)
      (by decide) (by decide)).2.2.2.2⟩

/-- C9: `predictDisease` called while the selected set is empty sends no
request and only sets the error message to the empty-selection text: loading,
the stored result and the selected set keep their values, and the running
component has no new pending request. -/
theorem predictDisease_empty_selection (base : String) (s : Sys)
    (hempty : s.app.selectedSymptoms = []) :
    (predictDisease base s.app s.app).2 = none ∧
    (predictDisease base s.app s.app).1 = { s.app with error := emptySelectionMessage } ∧
    (predictDisease base s.app s.app).1.loading = s.app.loading ∧
    (predictDisease base s.app s.app).1.results = s.app.results ∧
    (predictDisease base s.app s.app).1.selectedSymptoms = s.app.selectedSymptoms ∧
    Sys.call base s Event.predictDisease =
      some { s with app := { s.app with error := emptySelectionMessage } } := by
  simp [Sys.call, predictDisease, hempty]

/-- C9 at a sample: on the mounted component, where nothing is selected,
`predictDisease` sends no request and reports the empty selection. -/
theorem predictDisease_empty_selection_sample :
    Sys.start.app.selectedSymptoms = [] ∧
    (predictDisease defaultApiBaseUrl Sys.start.app Sys.start.app).2 = none ∧
    (predictDisease defaultApiBaseUrl Sys.start.app Sys.start.app).1.error
      = "Please add at least one symptom before predicting." :=
  ⟨rfl, (predictDisease_empty_selection defaultApiBaseUrl Sys.start rfl).1,
   congrArg AppState.error (predictDisease_empty_selection defaultApiBaseUrl Sys.start rfl).2.1⟩

end App
